import Mathlib

/-
  Verification development for the rise-up game core.

  Shallow embedding of src/lib/collision-system.ts, src/lib/game-engine.ts and
  the pattern-system module over exact rationals. JavaScript numbers are
  modelled as ℚ; the transcendental primitives (Math.sqrt, Math.sin, Math.cos,
  Math.PI) and the random source (Math.random) are modelled as oracle
  parameters: an Env record of functions and an explicit list of random draws
  consumed in call order. Obstacle id strings are presentational only (never
  read by the simulation) and are omitted.

  Arithmetic inside the embedding uses the wrappers qadd, qsub, qmul, qdiv
  below, which are kernel-reducible (the standard Rat operations are marked
  irreducible in the library and do not evaluate under decide). The theorems
  qadd_eq, qsub_eq, qmul_eq, qdiv_eq prove the wrappers equal to the standard
  field operations on ℚ, and symbolic proofs immediately rewrite with them.
-/

set_option linter.unusedVariables false

namespace RiseUp

/-! ## Reducible rational arithmetic -/

def qadd (a b : ℚ) : ℚ := mkRat (a.num * b.den + b.num * a.den) (a.den * b.den)

def qsub (a b : ℚ) : ℚ := qadd a (-b)

def qmul (a b : ℚ) : ℚ := mkRat (a.num * b.num) (a.den * b.den)

def qinv (a : ℚ) : ℚ :=
  if 0 < a.num then mkRat (a.den : ℤ) a.num.toNat
  else if a.num < 0 then mkRat (-(a.den : ℤ)) (-a.num).toNat
  else 0

def qdiv (a b : ℚ) : ℚ := qmul a (qinv b)

/-! ## Data model (src/lib/types.ts) -/

structure Vec2 where
  x : ℚ
  y : ℚ
deriving DecidableEq, Repr

attribute [ext] Vec2

def Vec2.neg (v : Vec2) : Vec2 := ⟨-v.x, -v.y⟩

inductive ObjType where
  | balloon | shield | block | spike | rotor | sweeper | shard
deriving DecidableEq, Repr

inductive GameState where
  | menu | playing | paused | gameOver
deriving DecidableEq, Repr

inductive ShieldSize where
  | small | normal | large
deriving DecidableEq, Repr

structure GameObject where
  position : Vec2
  velocity : Vec2
  radius : ℚ
  type : ObjType
  active : Bool
  width : ℚ
  height : ℚ
deriving DecidableEq, Repr

structure CollisionInfo where
  penetration : ℚ
  normal : Vec2
  point : Vec2
deriving DecidableEq, Repr

/-- Oracle bundle for the numeric primitives of the JavaScript host:
Math.sqrt, Math.sin, Math.cos and Math.PI. -/
structure Env where
  sqrtQ : ℚ → ℚ
  sinQ : ℚ → ℚ
  cosQ : ℚ → ℚ
  piQ : ℚ

/-- A Math.random() stream: draws are consumed front-first; an exhausted
stream keeps yielding 0. -/
def nextRand : List ℚ → ℚ × List ℚ
  | [] => (0, [])
  | d :: ds => (d, ds)

/-! ## Collision system (src/lib/collision-system.ts) -/

def circleVsCircle (sqrtQ : ℚ → ℚ) (obj1 obj2 : GameObject) : Option CollisionInfo :=
  let dx := qsub obj2.position.x obj1.position.x
  let dy := qsub obj2.position.y obj1.position.y
  let distanceSquared := qadd (qmul dx dx) (qmul dy dy)
  let radiusSum := qadd obj1.radius obj2.radius
  let radiusSumSquared := qmul radiusSum radiusSum
  if distanceSquared ≤ radiusSumSquared then
    let distance := sqrtQ distanceSquared
    let penetration := qsub radiusSum distance
    if distance = 0 then
      some ⟨penetration, ⟨1, 0⟩, ⟨obj1.position.x, obj1.position.y⟩⟩
    else
      let normalX := qdiv dx distance
      let normalY := qdiv dy distance
      some ⟨penetration, ⟨normalX, normalY⟩,
        ⟨qadd obj1.position.x (qmul normalX obj1.radius),
         qadd obj1.position.y (qmul normalY obj1.radius)⟩⟩
  else
    none

def circleVsAABB (sqrtQ : ℚ → ℚ) (cx cy r ax ay aw ah : ℚ) : Option CollisionInfo :=
  let closestX := max ax (min cx (qadd ax aw))
  let closestY := max ay (min cy (qadd ay ah))
  let dx := qsub cx closestX
  let dy := qsub cy closestY
  let distanceSquared := qadd (qmul dx dx) (qmul dy dy)
  if distanceSquared ≤ qmul r r then
    let distance := sqrtQ distanceSquared
    let penetration := qsub r distance
    if distance = 0 then
      let leftDist := qsub cx ax
      let rightDist := qsub (qadd ax aw) cx
      let topDist := qsub cy ay
      let bottomDist := qsub (qadd ay ah) cy
      let minDist := min leftDist (min rightDist (min topDist bottomDist))
      if minDist = leftDist then
        some ⟨qadd r leftDist, ⟨-1, 0⟩, ⟨ax, cy⟩⟩
      else if minDist = rightDist then
        some ⟨qadd r rightDist, ⟨1, 0⟩, ⟨qadd ax aw, cy⟩⟩
      else if minDist = topDist then
        some ⟨qadd r topDist, ⟨0, -1⟩, ⟨cx, ay⟩⟩
      else
        some ⟨qadd r bottomDist, ⟨0, 1⟩, ⟨cx, qadd ay ah⟩⟩
    else
      let normalX := qdiv dx distance
      let normalY := qdiv dy distance
      some ⟨penetration, ⟨normalX, normalY⟩, ⟨closestX, closestY⟩⟩
  else
    none

def checkCollision (sqrtQ : ℚ → ℚ) (obj1 obj2 : GameObject) : Option CollisionInfo :=
  if obj2.type = ObjType.block ∨ obj2.type = ObjType.sweeper then
    circleVsAABB sqrtQ obj1.position.x obj1.position.y obj1.radius
      (qsub obj2.position.x (qdiv obj2.width 2)) (qsub obj2.position.y (qdiv obj2.height 2))
      obj2.width obj2.height
  else
    circleVsCircle sqrtQ obj1 obj2

/-! ## Entity state (src/lib/game-engine.ts, src/lib/types.ts) -/

structure Balloon where
  position : Vec2
  velocity : Vec2
  radius : ℚ
  active : Bool
  baseVelocity : ℚ
  acceleration : ℚ
  driftOffset : ℚ
deriving DecidableEq, Repr

structure Shield where
  position : Vec2
  velocity : Vec2
  radius : ℚ
  active : Bool
  targetPosition : Vec2
  lerpFactor : ℚ
  mass : ℚ
  lastHitTime : ℚ
deriving DecidableEq, Repr

structure Obstacle where
  type : ObjType
  position : Vec2
  velocity : Vec2
  radius : ℚ
  active : Bool
  width : ℚ := 0
  height : ℚ := 0
  angle : ℚ := 0
  rotationSpeed : Option ℚ := none
  anchored : Bool := false
  arms : Option ℕ := none
  sweepDirection : Option ℚ := none
  lifeTime : Option ℚ := none
  originalPosition : Option Vec2 := none
deriving DecidableEq, Repr

structure GameSettings where
  sensitivity : ℚ
  shieldSize : ShieldSize
  debugMode : Bool
deriving DecidableEq, Repr

structure PatternDef where
  name : String
  weight : ℚ
  minAltitude : ℚ
deriving DecidableEq, Repr

structure PatternParams where
  centerX : ℚ
  spawnY : ℚ
  balloonVelocity : ℚ
  shieldRadius : ℚ
  difficulty : ℚ
deriving DecidableEq, Repr

structure PatternSystemState where
  spawnTimer : ℚ
  spawnCooldown : ℚ
  lastSpawnY : ℚ
  patternHistory : List String
deriving DecidableEq, Repr

/-- Per-tick input signals consumed by the engine: the pointer position in
world coordinates and the currently held WASD keys. -/
structure Input where
  mouseWorld : Vec2
  keyW : Bool
  keyA : Bool
  keyS : Bool
  keyD : Bool
deriving DecidableEq, Repr

structure Engine where
  width : ℚ
  height : ℚ
  gameState : GameState
  score : ℚ
  gameTime : ℚ
  cameraY : ℚ
  balloon : Balloon
  shield : Shield
  obstacles : List Obstacle
  settings : GameSettings
  psys : PatternSystemState
deriving DecidableEq, Repr

inductive Notification where
  | stateChanged (s : GameState)
  | scoreChanged (q : ℚ)
deriving DecidableEq, Repr

/-! ## Engine constants -/

def BALLOON_BASE_VELOCITY : ℚ := 80
def BALLOON_ACCELERATION : ℚ := 4
def BALLOON_MAX_VELOCITY : ℚ := 160
def SHIELD_LERP_FACTOR : ℚ := mkRat 28 100
def CAMERA_DEAD_ZONE : ℚ := 100
def keyboardSpeed : ℚ := 300
def physicsStep : ℚ := mkRat 1 120

def getShieldRadius (settings : GameSettings) : ℚ :=
  match settings.shieldSize with
  | ShieldSize.small => 36
  | ShieldSize.large => 48
  | ShieldSize.normal => 42

/-! ## Construction and commands -/

def initBalloon (w h : ℚ) : Balloon :=
  { position := ⟨qdiv w 2, qsub h 100⟩
    velocity := ⟨0, -BALLOON_BASE_VELOCITY⟩
    radius := 22
    active := true
    baseVelocity := BALLOON_BASE_VELOCITY
    acceleration := BALLOON_ACCELERATION
    driftOffset := 0 }

def initShield (w h : ℚ) (settings : GameSettings) : Shield :=
  { position := ⟨qdiv w 2, qsub h 150⟩
    velocity := ⟨0, 0⟩
    radius := getShieldRadius settings
    active := true
    targetPosition := ⟨qdiv w 2, qsub h 150⟩
    lerpFactor := SHIELD_LERP_FACTOR
    mass := 100
    lastHitTime := 0 }

def psysReset : PatternSystemState :=
  { spawnTimer := 0, spawnCooldown := mkRat 12 10, lastSpawnY := 0, patternHistory := [] }

def initSettings : GameSettings :=
  { sensitivity := 1, shieldSize := ShieldSize.normal, debugMode := false }

def initEngine (w h : ℚ) : Engine :=
  { width := w
    height := h
    gameState := GameState.menu
    score := 0
    gameTime := 0
    cameraY := 0
    balloon := initBalloon w h
    shield := initShield w h initSettings
    obstacles := []
    settings := initSettings
    psys := psysReset }

def resetGame (s : Engine) : Engine × List Notification :=
  ({ s with
      gameTime := 0
      score := 0
      cameraY := 0
      obstacles := []
      balloon := { s.balloon with
        position := ⟨qdiv s.width 2, qsub s.height 100⟩
        velocity := ⟨0, -BALLOON_BASE_VELOCITY⟩
        active := true
        driftOffset := 0 }
      shield := { s.shield with
        position := ⟨qdiv s.width 2, qsub s.height 150⟩
        velocity := ⟨0, 0⟩
        targetPosition := ⟨qdiv s.width 2, qsub s.height 150⟩
        active := true
        lastHitTime := 0 }
      psys := psysReset },
   [Notification.scoreChanged 0])

def startGame (s : Engine) : Engine × List Notification :=
  let r := resetGame s
  ({ r.1 with gameState := GameState.playing },
   r.2 ++ [Notification.stateChanged GameState.playing])

def pauseGame (s : Engine) : Engine × List Notification :=
  if s.gameState = GameState.playing then
    ({ s with gameState := GameState.paused }, [Notification.stateChanged GameState.paused])
  else
    (s, [])

def resumeGame (s : Engine) : Engine × List Notification :=
  if s.gameState = GameState.paused then
    ({ s with gameState := GameState.playing }, [Notification.stateChanged GameState.playing])
  else
    (s, [])

def restartGame (s : Engine) : Engine × List Notification :=
  startGame s

def toggleDebug (s : Engine) : Engine :=
  { s with settings := { s.settings with debugMode := !s.settings.debugMode } }

def setSensitivity (sensitivity : ℚ) (s : Engine) : Engine :=
  { s with settings := { s.settings with
      sensitivity := max (mkRat 5 10) (min (mkRat 15 10) sensitivity) } }

def setShieldSize (size : ShieldSize) (s : Engine) : Engine :=
  let s := { s with settings := { s.settings with shieldSize := size } }
  { s with shield := { s.shield with radius := getShieldRadius s.settings } }

def getScore (s : Engine) : ℚ :=
  s.score

def getObstacleMass (type : ObjType) : ℚ :=
  match type with
  | ObjType.block => mkRat 6 10
  | ObjType.rotor => 3
  | ObjType.shard => mkRat 2 10
  | ObjType.spike => 1
  | ObjType.sweeper => 2
  | _ => 1

/-! ## Pattern system (pattern-system module) -/

def patternsList : List PatternDef :=
  [ ⟨"blockRain", 3, 0⟩
  , ⟨"chicane", 2, 50⟩
  , ⟨"spikeGauntlet", 2, 100⟩
  , ⟨"rotor", mkRat 15 10, 150⟩
  , ⟨"sweeper", mkRat 15 10, 100⟩
  , ⟨"shardBurst", 1, 200⟩
  , ⟨"gridDrop", 2, 75⟩ ]

def totalWeight (patterns : List PatternDef) : ℚ :=
  patterns.foldl (fun sum p => qadd sum p.weight) 0

def selectWeightedGo : ℚ → List PatternDef → Option PatternDef
  | _, [] => none
  | random, p :: rest =>
    let random := qsub random p.weight
    if random ≤ 0 then some p else selectWeightedGo random rest

def selectWeightedPattern (r : ℚ) (patterns : List PatternDef) : PatternDef :=
  match selectWeightedGo (qmul r (totalWeight patterns)) patterns with
  | some p => p
  | none => (patterns.getLast?).getD ⟨"", 0, 0⟩

/-- Math.random() * (800 - 100) + 50 retried while the draw lands inside the
safe zone, at most 10 attempts in total (first draw plus up to 9 retries). -/
def pickBlockX (safeX safeWidth : ℚ) : ℕ → List ℚ → ℚ × List ℚ
  | fuel, draws =>
    let r := nextRand draws
    let x := qadd (qmul r.1 (qsub 800 100)) 50
    match fuel with
    | 0 => (x, r.2)
    | fuel' + 1 =>
      if qsub safeX 40 < x ∧ x < qadd (qadd safeX safeWidth) 40 then
        pickBlockX safeX safeWidth fuel' r.2
      else
        (x, r.2)

def blockRainGo (spawnY safeX minGap : ℚ) : ℕ → List ℚ → List Obstacle × List ℚ
  | 0, draws => ([], draws)
  | n + 1, draws =>
    let px := pickBlockX safeX minGap 9 draws
    let ry := nextRand px.2
    let rv := nextRand ry.2
    let o : Obstacle :=
      { type := ObjType.block
        position := ⟨px.1, qsub spawnY (qmul ry.1 100)⟩
        velocity := ⟨0, qadd (qmul rv.1 30) 20⟩
        radius := 20
        width := 40
        height := 40
        active := true }
    let rest := blockRainGo spawnY safeX minGap n rv.2
    (o :: rest.1, rest.2)

def spawnBlockRain (params : PatternParams) (draws : List ℚ) : List Obstacle × List ℚ :=
  let blockCount := (qadd 2 (qmul params.difficulty 3)).floor.toNat
  let minGap := qadd (qmul params.shieldRadius (mkRat 24 10)) 20
  let safeX := qsub params.centerX (qdiv minGap 2)
  blockRainGo params.spawnY safeX minGap blockCount draws

def spawnChicane (params : PatternParams) (draws : List ℚ) : List Obstacle × List ℚ :=
  let r := nextRand draws
  let side : ℚ := if r.1 < mkRat 5 10 then -1 else 1
  let gapSize := max (qadd (qmul params.shieldRadius (mkRat 22 10)) 12) 100
  let obstacles : List Obstacle :=
    (if side = 1 then
      [{ type := ObjType.block
         position := ⟨50, params.spawnY⟩
         velocity := ⟨0, 0⟩
         radius := 25, width := 100, height := 50
         active := true, anchored := true }]
     else []) ++
    (if side = -1 then
      [{ type := ObjType.block
         position := ⟨750, params.spawnY⟩
         velocity := ⟨0, 0⟩
         radius := 25, width := 100, height := 50
         active := true, anchored := true }]
     else [])
  (obstacles, r.2)

def spikeGauntletGo (env : Env) (spawnY centerX minGap : ℚ) (count : ℕ) :
    ℕ → List ℚ → List Obstacle × List ℚ
  | 0, draws => ([], draws)
  | n + 1, draws =>
    let i := count - (n + 1)
    let ra := nextRand draws
    let angle := qmul (qmul ra.1 env.piQ) 2
    let rx := nextRand ra.2
    let x := qadd 100 (qmul rx.1 600)
    if qdiv minGap 2 < |qsub x centerX| then
      let ranch := nextRand rx.2
      let o : Obstacle :=
        { type := ObjType.spike
          position := ⟨x, qsub spawnY (qmul (i : ℚ) 60)⟩
          velocity := ⟨0, 0⟩
          radius := 25
          active := true
          angle := angle
          anchored := decide (ranch.1 < mkRat 7 10) }
      let rest := spikeGauntletGo env spawnY centerX minGap count n ranch.2
      (o :: rest.1, rest.2)
    else
      spikeGauntletGo env spawnY centerX minGap count n rx.2

def spawnSpikeGauntlet (env : Env) (params : PatternParams) (draws : List ℚ) :
    List Obstacle × List ℚ :=
  let spikeCount := (qadd 3 (qmul params.difficulty 2)).floor.toNat
  let minGap := qadd (qmul params.shieldRadius (mkRat 24 10)) 15
  spikeGauntletGo env params.spawnY params.centerX minGap spikeCount spikeCount draws

def spawnRotor (params : PatternParams) (draws : List ℚ) : List Obstacle × List ℚ :=
  let rx := nextRand draws
  let rotorX := qadd params.centerX (qmul (qsub rx.1 (mkRat 5 10)) 200)
  let rs := nextRand rx.2
  let rotationSpeed := qadd (qmul (qsub rs.1 (mkRat 5 10)) 4) 2
  ([{ type := ObjType.rotor
      position := ⟨rotorX, params.spawnY⟩
      velocity := ⟨0, 0⟩
      radius := 80
      active := true
      angle := 0
      rotationSpeed := some rotationSpeed
      arms := some 3
      anchored := true }], rs.2)

def spawnSweeper (params : PatternParams) (draws : List ℚ) : List Obstacle × List ℚ :=
  let r := nextRand draws
  let direction : ℚ := if r.1 < mkRat 5 10 then -1 else 1
  let startX : ℚ := if direction = 1 then -50 else 850
  let speed := qadd 150 (qmul params.difficulty 50)
  ([{ type := ObjType.sweeper
      position := ⟨startX, params.spawnY⟩
      velocity := ⟨qmul direction speed, 0⟩
      radius := 15, width := 200, height := 30
      active := true
      sweepDirection := some direction }], r.2)

def shardBurstGo (env : Env) (spawnY centerX : ℚ) (count : ℕ) :
    ℕ → List ℚ → List Obstacle × List ℚ
  | 0, draws => ([], draws)
  | n + 1, draws =>
    let i := count - (n + 1)
    let angle := qmul (qmul (qdiv (i : ℚ) (count : ℚ)) env.piQ) 2
    let rs := nextRand draws
    let speed := qadd 100 (qmul rs.1 50)
    let rl := nextRand rs.2
    let o : Obstacle :=
      { type := ObjType.shard
        position := ⟨centerX, spawnY⟩
        velocity := ⟨qmul (env.cosQ angle) speed, qadd (qmul (env.sinQ angle) speed) 50⟩
        radius := 8
        active := true
        lifeTime := some (qadd 3 (qmul rl.1 2)) }
    let rest := shardBurstGo env spawnY centerX count n rl.2
    (o :: rest.1, rest.2)

def spawnShardBurst (env : Env) (params : PatternParams) (draws : List ℚ) :
    List Obstacle × List ℚ :=
  let shardCount := (qadd 8 (qmul params.difficulty 4)).floor.toNat
  let rc := nextRand draws
  let centerX := qadd params.centerX (qmul (qsub rc.1 (mkRat 5 10)) 200)
  shardBurstGo env params.spawnY centerX shardCount shardCount rc.2

def gridColumnGo (spawnY x : ℚ) : ℕ → ℕ → List ℚ → List Obstacle × List ℚ
  | _, 0, draws => ([], draws)
  | count, n + 1, draws =>
    let i := count - (n + 1)
    let rx := nextRand draws
    let ry := nextRand rx.2
    let rv := nextRand ry.2
    let o : Obstacle :=
      { type := ObjType.block
        position := ⟨qadd x (qmul (qsub rx.1 (mkRat 5 10)) 40),
                     qsub (qsub spawnY (qmul (i : ℚ) 80)) (qmul ry.1 50)⟩
        velocity := ⟨0, qadd 30 (qmul rv.1 20)⟩
        radius := 20, width := 40, height := 40
        active := true
        anchored := false }
    let rest := gridColumnGo spawnY x count n rv.2
    (o :: rest.1, rest.2)

def gridDropGo (spawnY columnWidth : ℚ) (safeColumn : ℤ) :
    ℕ → List ℚ → List Obstacle × List ℚ
  | col, draws =>
    if h : col < 4 then
      if (col : ℤ) = safeColumn then
        gridDropGo spawnY columnWidth safeColumn (col + 1) draws
      else
        let x := qadd (qmul (col : ℚ) columnWidth) (qdiv columnWidth 2)
        let rb := nextRand draws
        let blockCount := (qadd 2 (qmul rb.1 3)).floor.toNat
        let colObs := gridColumnGo spawnY x blockCount blockCount rb.2
        let rest := gridDropGo spawnY columnWidth safeColumn (col + 1) colObs.2
        (colObs.1 ++ rest.1, rest.2)
    else
      ([], draws)
termination_by col _ => 4 - col

def spawnGridDrop (params : PatternParams) (draws : List ℚ) : List Obstacle × List ℚ :=
  let columnWidth : ℚ := qdiv 800 4
  let rs := nextRand draws
  let safeColumn := (qmul rs.1 4).floor
  gridDropGo params.spawnY columnWidth safeColumn 0 rs.2

def executeBuilder (env : Env) (name : String) (params : PatternParams) (draws : List ℚ) :
    List Obstacle × List ℚ :=
  if name = "blockRain" then spawnBlockRain params draws
  else if name = "chicane" then spawnChicane params draws
  else if name = "spikeGauntlet" then spawnSpikeGauntlet env params draws
  else if name = "rotor" then spawnRotor params draws
  else if name = "sweeper" then spawnSweeper params draws
  else if name = "shardBurst" then spawnShardBurst env params draws
  else if name = "gridDrop" then spawnGridDrop params draws
  else ([], draws)

def executePattern (env : Env) (sys : PatternSystemState) (pattern : PatternDef)
    (params : PatternParams) (draws : List ℚ) :
    List Obstacle × PatternSystemState × List ℚ :=
  let history := sys.patternHistory ++ [pattern.name]
  let history := if history.length > 5 then history.drop 1 else history
  let sys := { sys with patternHistory := history, lastSpawnY := params.spawnY }
  let built := executeBuilder env pattern.name params draws
  (built.1, sys, built.2)

def spawnPattern (env : Env) (sys : PatternSystemState) (params : PatternParams)
    (draws : List ℚ) : List Obstacle × PatternSystemState × List ℚ :=
  let currentAltitude := qdiv |params.spawnY| 10
  let availablePatterns := patternsList.filter (fun p => p.minAltitude ≤ currentAltitude)
  if availablePatterns.isEmpty then
    ([], sys, draws)
  else
    let r1 := nextRand draws
    let pattern := selectWeightedPattern r1.1 availablePatterns
    if sys.patternHistory.length ≥ 3 ∧
        ((sys.patternHistory.drop (sys.patternHistory.length - 2)).all
          (fun name => name = pattern.name)) then
      let alternatives := availablePatterns.filter (fun p => p.name ≠ pattern.name)
      if ¬alternatives.isEmpty then
        let r2 := nextRand r1.2
        let altPattern := selectWeightedPattern r2.1 alternatives
        executePattern env sys altPattern params r2.2
      else
        executePattern env sys pattern params r1.2
    else
      executePattern env sys pattern params r1.2

def psysUpdate (env : Env) (sys : PatternSystemState) (dt : ℚ) (params : PatternParams)
    (draws : List ℚ) : List Obstacle × PatternSystemState × List ℚ :=
  let sys := { sys with spawnTimer := qsub sys.spawnTimer dt }
  if sys.spawnTimer ≤ 0 then
    let cooldown := max (mkRat 55 100) (qsub (mkRat 12 10) (qmul params.difficulty (mkRat 65 100)))
    spawnPattern env { sys with spawnCooldown := cooldown, spawnTimer := cooldown } params draws
  else
    ([], sys, draws)

/-! ## Per-tick updates (GameEngine.updatePhysics and its stages) -/

def updateInput (dt : ℚ) (inp : Input) (s : Engine) : Engine :=
  if s.gameState ≠ GameState.playing then s
  else
    let tx := qmul inp.mouseWorld.x s.settings.sensitivity
    let ty := qmul inp.mouseWorld.y s.settings.sensitivity
    let kdx := qadd (if inp.keyA then -(qmul keyboardSpeed dt) else 0)
                    (if inp.keyD then qmul keyboardSpeed dt else 0)
    let kdy := qadd (if inp.keyW then -(qmul keyboardSpeed dt) else 0)
                    (if inp.keyS then qmul keyboardSpeed dt else 0)
    let tx := if kdx ≠ 0 ∨ kdy ≠ 0 then qadd s.shield.position.x kdx else tx
    let ty := if kdx ≠ 0 ∨ kdy ≠ 0 then qadd s.shield.position.y kdy else ty
    let tx := max s.shield.radius (min (qsub s.width s.shield.radius) tx)
    let ty := max (qadd s.shield.radius s.cameraY)
                  (min (qsub (qadd s.height s.cameraY) s.shield.radius) ty)
    { s with shield := { s.shield with targetPosition := ⟨tx, ty⟩ } }

def updateBalloon (env : Env) (dt : ℚ) (s : Engine) : Engine :=
  let b := s.balloon
  let currentSpeed := |b.velocity.y|
  let maxSpeed := min BALLOON_MAX_VELOCITY
    (qadd BALLOON_BASE_VELOCITY (qmul b.acceleration s.gameTime))
  let vy := if currentSpeed < maxSpeed then qsub b.velocity.y (qmul b.acceleration dt)
            else b.velocity.y
  let driftOffset := qadd b.driftOffset (qmul dt (mkRat 5 10))
  let drift := qadd (qmul (env.sinQ driftOffset) 10)
                    (qmul (env.sinQ (qmul driftOffset (mkRat 23 10))) 5)
  let vx := drift
  let py := qadd b.position.y (qmul vy dt)
  let centerX := qdiv s.width 2
  { s with balloon := { b with
      velocity := ⟨vx, vy⟩
      driftOffset := driftOffset
      position := ⟨qadd centerX drift, py⟩ } }

def updateShield (dt : ℚ) (s : Engine) : Engine :=
  let dx := qsub s.shield.targetPosition.x s.shield.position.x
  let dy := qsub s.shield.targetPosition.y s.shield.position.y
  { s with shield := { s.shield with
      position := ⟨qadd s.shield.position.x (qmul dx s.shield.lerpFactor),
                   qadd s.shield.position.y (qmul dy s.shield.lerpFactor)⟩
      velocity := ⟨qdiv (qmul dx s.shield.lerpFactor) dt,
                   qdiv (qmul dy s.shield.lerpFactor) dt⟩ } }

/-- JavaScript truthiness of an optional numeric field (undefined and 0 are falsy). -/
def truthyQ : Option ℚ → Bool
  | none => false
  | some q => q ≠ 0

/-- JavaScript expression (x || d) for an optional numeric x. -/
def jsOr (x : Option ℚ) (d : ℚ) : ℚ :=
  match x with
  | some q => if q ≠ 0 then q else d
  | none => d

def updateObstacle1 (env : Env) (dt : ℚ) (s : Engine) (o : Obstacle) : Obstacle :=
  let o :=
    if ¬o.anchored ∧ s.gameState = GameState.playing then
      let dx := qsub s.shield.position.x o.position.x
      let dy := qsub s.shield.position.y o.position.y
      let distance := env.sqrtQ (qadd (qmul dx dx) (qmul dy dy))
      if qadd (qadd s.shield.radius o.radius) 10 < distance ∧ distance < 200 then
        let mass := getObstacleMass o.type
        let force := qdiv 15 (qmul distance distance)
        let forceX := qdiv (qmul (qdiv dx distance) force) mass
        let forceY := qdiv (qmul (qdiv dy distance) force) mass
        { o with velocity := ⟨qadd o.velocity.x (qmul forceX dt),
                              qadd o.velocity.y (qmul forceY dt)⟩ }
      else o
    else o
  let o := { o with velocity := ⟨qmul o.velocity.x (mkRat 985 1000),
                                 qmul o.velocity.y (mkRat 985 1000)⟩ }
  let o := { o with position := ⟨qadd o.position.x (qmul o.velocity.x dt),
                                 qadd o.position.y (qmul o.velocity.y dt)⟩ }
  let o :=
    if o.type = ObjType.rotor ∧ truthyQ o.rotationSpeed then
      { o with angle := qadd o.angle (qmul (o.rotationSpeed.getD 0) dt) }
    else o
  let o :=
    match o.lifeTime with
    | some lt =>
      let lt := qsub lt dt
      { o with lifeTime := some lt, active := if lt ≤ 0 then false else o.active }
    | none => o
  if qadd (qadd s.cameraY s.height) 200 < o.position.y then { o with active := false } else o

def updateObstacles (env : Env) (dt : ℚ) (s : Engine) : Engine :=
  { s with obstacles := s.obstacles.map (updateObstacle1 env dt s) }

def updateSpawning (env : Env) (dt : ℚ) (s : Engine) (draws : List ℚ) :
    Engine × List ℚ :=
  let difficulty := min 1 (qdiv s.gameTime 180)
  let params : PatternParams :=
    { centerX := qdiv s.width 2
      spawnY := qsub s.cameraY 100
      balloonVelocity := |s.balloon.velocity.y|
      shieldRadius := s.shield.radius
      difficulty := difficulty }
  let r := psysUpdate env s.psys dt params draws
  ({ s with obstacles := s.obstacles ++ r.1, psys := r.2.1 }, r.2.2)

def updateCamera (s : Engine) : Engine :=
  let targetCameraY := qadd (qsub s.balloon.position.y s.height) 300
  if targetCameraY < qsub s.cameraY CAMERA_DEAD_ZONE then
    { s with cameraY := qadd targetCameraY CAMERA_DEAD_ZONE }
  else s

def balloonGO (b : Balloon) : GameObject :=
  ⟨b.position, b.velocity, b.radius, ObjType.balloon, b.active, 0, 0⟩

def shieldGO (sh : Shield) : GameObject :=
  ⟨sh.position, sh.velocity, sh.radius, ObjType.shield, sh.active, 0, 0⟩

def obstacleGO (o : Obstacle) : GameObject :=
  ⟨o.position, o.velocity, o.radius, o.type, o.active, o.width, o.height⟩

/-- JavaScript Math.sign. -/
def signJS (q : ℚ) : ℚ :=
  if 0 < q then 1 else if q < 0 then -1 else 0

/-- Shared tail of handleShieldCollision: impulse computation and application
once a repulsion direction is known. -/
def applyImpulse (env : Env) (shield : Shield) (o : Obstacle) (repulsionDir : Vec2)
    (mass baseImpulseStrength : ℚ) (draws : List ℚ) : Obstacle × List ℚ :=
  let shieldSpeed := env.sqrtQ (qadd (qmul shield.velocity.x shield.velocity.x)
                                     (qmul shield.velocity.y shield.velocity.y))
  let shieldContribution := min (qmul shieldSpeed (mkRat 3 10)) 150
  let totalImpulse := qadd baseImpulseStrength (if o.anchored then 0 else shieldContribution)
  let impulse : Vec2 := ⟨qdiv (qmul repulsionDir.x totalImpulse) mass,
                         qdiv (qmul repulsionDir.y totalImpulse) mass⟩
  let r :=
    if o.anchored then
      if o.type = ObjType.rotor then
        let newSpin := qadd (jsOr o.rotationSpeed 0)
                            (qmul (mkRat 5 10) (signJS (jsOr o.rotationSpeed 1)))
        ({ o with rotationSpeed := some newSpin }, draws)
      else if o.type = ObjType.spike ∨ o.type = ObjType.block then
        let o := { o with position := ⟨qadd o.position.x (qmul impulse.x (mkRat 1 10)),
                                       qadd o.position.y (qmul impulse.y (mkRat 1 10))⟩ }
        let orig := match o.originalPosition with
          | some p => p
          | none => o.position
        let o := { o with originalPosition := some orig }
        ({ o with velocity := ⟨qmul (qsub orig.x o.position.x) (mkRat 15 100),
                               qmul (qsub orig.y o.position.y) (mkRat 15 100)⟩ }, draws)
      else (o, draws)
    else
      let o := { o with velocity := ⟨qadd o.velocity.x impulse.x,
                                     qadd o.velocity.y impulse.y⟩ }
      let randomness : ℚ :=
        if o.type = ObjType.block ∨ o.type = ObjType.sweeper then 10 else 20
      let r1 := nextRand draws
      let r2 := nextRand r1.2
      ({ o with velocity :=
          ⟨qadd o.velocity.x (qdiv (qmul (qsub r1.1 (mkRat 5 10)) randomness) mass),
           qadd o.velocity.y (qdiv (qmul (qsub r2.1 (mkRat 5 10)) randomness) mass)⟩ }, r2.2)
  (if r.1.type = ObjType.shard then { r.1 with active := false } else r.1, r.2)

def handleShieldCollision (env : Env) (shield : Shield) (o : Obstacle)
    (collision : CollisionInfo) (draws : List ℚ) : Obstacle × List ℚ :=
  let mass := getObstacleMass o.type
  let baseImpulseStrength : ℚ := if o.anchored then 50 else 250
  if o.type = ObjType.block ∨ o.type = ObjType.sweeper then
    let o := { o with position := ⟨qadd o.position.x (qmul collision.normal.x 2),
                                   qadd o.position.y (qmul collision.normal.y 2)⟩ }
    applyImpulse env shield o collision.normal mass baseImpulseStrength draws
  else
    let dx := qsub o.position.x shield.position.x
    let dy := qsub o.position.y shield.position.y
    let distance := env.sqrtQ (qadd (qmul dx dx) (qmul dy dy))
    if distance = 0 then
      if ¬o.anchored then
        let r1 := nextRand draws
        let r2 := nextRand r1.2
        ({ o with velocity :=
            ⟨qadd o.velocity.x (qdiv (qmul (qsub r1.1 (mkRat 5 10)) 100) mass),
             qadd o.velocity.y (qdiv (qmul (qsub r2.1 (mkRat 5 10)) 100) mass)⟩ }, r2.2)
      else (o, draws)
    else
      applyImpulse env shield o ⟨qdiv dx distance, qdiv dy distance⟩ mass
        baseImpulseStrength draws

def shieldCollisionStep (env : Env) (s : Engine)
    (acc : List Obstacle × Bool × List ℚ) (o : Obstacle) :
    List Obstacle × Bool × List ℚ :=
  match (if o.active then checkCollision env.sqrtQ (shieldGO s.shield) (obstacleGO o)
         else none) with
  | some collision =>
    let r := handleShieldCollision env s.shield o collision acc.2.2
    (acc.1 ++ [r.1], true, r.2)
  | none => (acc.1 ++ [o], acc.2.1, acc.2.2)

def checkCollisions (env : Env) (s : Engine) (draws : List ℚ) : Engine × List ℚ :=
  if s.obstacles.any (fun o =>
      o.active && (checkCollision env.sqrtQ (balloonGO s.balloon) (obstacleGO o)).isSome) then
    ({ s with gameState := GameState.gameOver }, draws)
  else
    let r := s.obstacles.foldl (shieldCollisionStep env s) ([], false, draws)
    ({ s with obstacles := r.1
              shield := if r.2.1 then { s.shield with lastHitTime := s.gameTime }
                        else s.shield }, r.2.2)

def updatePhysics (env : Env) (dt : ℚ) (inp : Input) (draws : List ℚ) (s : Engine) :
    Engine × List ℚ :=
  let s := { s with gameTime := qadd s.gameTime dt }
  let s := updateInput dt inp s
  let s := updateBalloon env dt s
  let s := updateShield dt s
  let s := updateObstacles env dt s
  let r := updateSpawning env dt s draws
  let s := updateCamera r.1
  let r2 := checkCollisions env s r.2
  let s := r2.1
  let s := { s with score := max 0 (qdiv (qsub s.height s.balloon.position.y) 10) }
  ({ s with obstacles := s.obstacles.filter (fun o => o.active) }, r2.2)

/-! ## Reachability: a run of the engine under arbitrary per-tick inputs,
oracle draws and gameplay commands (the shield-size setting is held fixed
for the run). -/

inductive Step (env : Env) : Engine → Engine → Prop
  | tick (s : Engine) (inp : Input) (draws : List ℚ)
      (h : s.gameState = GameState.playing) :
      Step env s (updatePhysics env physicsStep inp draws s).1
  | start (s : Engine) : Step env s (startGame s).1
  | pause (s : Engine) : Step env s (pauseGame s).1
  | resume (s : Engine) : Step env s (resumeGame s).1
  | sens (s : Engine) (v : ℚ) : Step env s (setSensitivity v s)
  | debug (s : Engine) : Step env s (toggleDebug s)

def Reachable (env : Env) (w h : ℚ) (s : Engine) : Prop :=
  Relation.ReflTransGen (Step env) (initEngine w h) s

/-! ## Concrete oracles and a concrete run used for the shield-bound analysis -/

/-- A concrete oracle choice: sqrt is the identity, sine and cosine are zero.
In the concrete run driven below, sqrt is only ever applied to squared
distances of objects more than 200 apart, where any value above 200 leaves
every branch unchanged; the identity has that property. -/
def envId : Env := ⟨fun q => q, fun _ => 0, fun _ => 0, 0⟩

/-- Pointer pinned to the bottom edge of the viewport (world coordinates),
no keys held. -/
def inpBottom (s : Engine) : Input :=
  ⟨⟨960, qadd s.cameraY 1080⟩, false, false, false, false⟩

def tickBottom (s : Engine) : Engine :=
  (updatePhysics envId physicsStep (inpBottom s) [] s).1

def startState : Engine := (startGame (initEngine 1920 1080)).1

/-- The claimed shield-position bounds: horizontally within
[radius, width − radius] and vertically within the camera-relative band
[cameraY + radius, cameraY + height − radius]. -/
def shieldInBounds (s : Engine) : Prop :=
  s.shield.radius ≤ s.shield.position.x ∧
  s.shield.position.x ≤ s.width - s.shield.radius ∧
  s.cameraY + s.shield.radius ≤ s.shield.position.y ∧
  s.shield.position.y ≤ s.cameraY + s.height - s.shield.radius

/-- Balloon height after k ticks of the concrete run (closed form). -/
def ballY (k : ℕ) : ℚ :=
  980 - (80 * k + k * (k + 1) / 60) / 120

/-- Shield height after k ticks of the concrete run (closed form). -/
def shY (k : ℕ) : ℚ :=
  1038 - 108 * (18 / 25) ^ k

/-- An obstacle parked in the far-left lane of the concrete run: a 40×40
block at x = 50 with no horizontal velocity. Such a block can never touch
the balloon or the shield, both pinned at x = 960. -/
def OPark (o : Obstacle) : Prop :=
  o.type = ObjType.block ∧ o.position.x = 50 ∧ o.velocity.x = 0 ∧
  o.width = 40 ∧ o.height = 40

/-- The block spawned by every blockRain execution of the concrete run
(all random draws exhausted, so every Math.random() yields 0). -/
def parkBlock : Obstacle :=
  { type := ObjType.block
    position := ⟨50, -100⟩
    velocity := ⟨0, 20⟩
    radius := 20
    width := 40
    height := 40
    active := true }

/-- Shape of the states of the concrete run: everything the tick function
reads, with the balloon and shield heights given by their closed forms and
every obstacle a block parked at x = 50. -/
structure CShape (k : ℕ) (s : Engine) : Prop where
  hw : s.width = 1920
  hh : s.height = 1080
  hst : s.gameState = GameState.playing
  ht : s.gameTime = k / 120
  hcam : s.cameraY = 0
  hacc : s.balloon.acceleration = 4
  hbr : s.balloon.radius = 22
  hvy : s.balloon.velocity.y = -(80 + k / 30)
  hby : s.balloon.position.y = ballY k
  hsx : s.shield.position.x = 960
  hsy : s.shield.position.y = shY k
  hsr : s.shield.radius = 42
  hsl : s.shield.lerpFactor = mkRat 28 100
  hsens : s.settings.sensitivity = 1
  hobs : ∀ o ∈ s.obstacles, OPark o

/-! ## Concrete states used by individual claims -/

/-- One tick from the start of a run with the pointer resting at the shield's
start position (960, 930) and no keys held. -/
def c2Input : Input := ⟨⟨960, 930⟩, false, false, false, false⟩

def c2State : Engine := (updatePhysics envId physicsStep c2Input [] startState).1

/-- A motionless far-left block: one tick from c8State leaves its field
values unchanged, so it reappears verbatim in the post-tick collection. -/
def c8Block : Obstacle :=
  { type := ObjType.block
    position := ⟨50, -100⟩
    velocity := ⟨0, 0⟩
    radius := 20
    width := 40
    height := 40
    active := true }

def c8State : Engine := { startState with obstacles := [c8Block] }

/-- Shield of the spec scenario: center (500, 500), radius 42. -/
def c6Shield : Shield :=
  ⟨⟨500, 500⟩, ⟨0, 0⟩, 42, true, ⟨500, 500⟩, mkRat 28 100, 100, 0⟩

/-- A live, non-anchored shard whose center coincides with the shield's. -/
def c6Shard : Obstacle :=
  { type := ObjType.shard
    position := ⟨500, 500⟩
    velocity := ⟨0, 0⟩
    radius := 8
    active := true }

/-- A circular body and a rectangular block used to compare the two dispatch
orders of checkCollision. -/
def c1Spike : GameObject := ⟨⟨0, 0⟩, ⟨0, 0⟩, 10, ObjType.spike, true, 0, 0⟩

def c1Block : GameObject := ⟨⟨100, 0⟩, ⟨0, 0⟩, 20, ObjType.block, true, 200, 40⟩

/-- Two circular bodies with coincident centers (zero-distance degenerate). -/
def c1Coin1 : GameObject := ⟨⟨5, 5⟩, ⟨0, 0⟩, 3, ObjType.shard, true, 0, 0⟩

def c1Coin2 : GameObject := ⟨⟨5, 5⟩, ⟨0, 0⟩, 4, ObjType.spike, true, 0, 0⟩

/-- Two circular bodies with distinct centers for the witness. -/
def c1A : GameObject := ⟨⟨0, 0⟩, ⟨0, 0⟩, 22, ObjType.balloon, true, 0, 0⟩

def c1B : GameObject := ⟨⟨3, 4⟩, ⟨0, 0⟩, 5, ObjType.shard, true, 0, 0⟩

/-- Spawn parameters deep enough that every registered pattern is unlocked. -/
def c7Params : PatternParams := ⟨960, -2000, 80, 42, 0⟩

/-- A pattern-system state whose last three selections were all blockRain. -/
def c7Sys : PatternSystemState :=
  ⟨0, mkRat 12 10, 0, ["blockRain", "blockRain", "blockRain"]⟩

def c7Run1 : List Obstacle × PatternSystemState × List ℚ :=
  spawnPattern envId psysReset c7Params []

def c7Run2 : List Obstacle × PatternSystemState × List ℚ :=
  spawnPattern envId c7Run1.2.1 c7Params []

def c7Run3 : List Obstacle × PatternSystemState × List ℚ :=
  spawnPattern envId c7Run2.2.1 c7Params []

/-- The net WASD displacement of a tick (the keyboardDelta of updateInput). -/
def inputKeyDelta (dt : ℚ) (inp : Input) : ℚ × ℚ :=
  (qadd (if inp.keyA then -(qmul keyboardSpeed dt) else 0)
        (if inp.keyD then qmul keyboardSpeed dt else 0),
   qadd (if inp.keyW then -(qmul keyboardSpeed dt) else 0)
        (if inp.keyS then qmul keyboardSpeed dt else 0))

/-- Core run invariant: balloon speed law, tick-aligned clock, and the score
bounded by the altitude formula. -/
structure InvCore (w h : ℚ) (s : Engine) : Prop where
  hw : s.width = w
  hh : s.height = h
  hacc : s.balloon.acceleration = 4
  hvy : s.balloon.velocity.y = -(min 160 (80 + 4 * s.gameTime))
  htime : ∃ k : ℕ, s.gameTime = k / 120
  hscore0 : 0 ≤ s.score
  hscore : s.score ≤ max 0 ((h - s.balloon.position.y) / 10)

/-- Shield run invariant: fixed radius and smoothing factor, horizontal
position inside [radius, width − radius], vertical position below (in screen
coordinates: no higher than) the camera-relative top bound. -/
structure InvShield (w h : ℚ) (s : Engine) : Prop where
  hw : s.width = w
  hh : s.height = h
  hsr : s.shield.radius = 42
  hsl : s.shield.lerpFactor = 7 / 25
  hx1 : 42 ≤ s.shield.position.x
  hx2 : s.shield.position.x ≤ w - 42
  hy1 : s.cameraY + 42 ≤ s.shield.position.y

/-! ## Theorems. First, the bridge between the reducible wrappers and the
standard field operations on ℚ. -/

theorem qadd_eq (a b : ℚ) : qadd a b = a + b := by
  have ha : (a.den : ℤ) ≠ 0 := by exact_mod_cast a.den_ne_zero
  have hb : (b.den : ℤ) ≠ 0 := by exact_mod_cast b.den_ne_zero
  rw [qadd, Rat.mkRat_eq_divInt]
  push_cast
  rw [← Rat.divInt_add_divInt a.num b.num ha hb, Rat.num_divInt_den, Rat.num_divInt_den]

theorem qsub_eq (a b : ℚ) : qsub a b = a - b := by
  rw [qsub, qadd_eq, ← sub_eq_add_neg]

theorem qmul_eq (a b : ℚ) : qmul a b = a * b := by
  have ha : (a.den : ℤ) ≠ 0 := by exact_mod_cast a.den_ne_zero
  have hb : (b.den : ℤ) ≠ 0 := by exact_mod_cast b.den_ne_zero
  rw [qmul, Rat.mkRat_eq_divInt]
  push_cast
  rw [← Rat.divInt_mul_divInt a.num b.num ha hb, Rat.num_divInt_den, Rat.num_divInt_den]

theorem qinv_eq (a : ℚ) : qinv a = a⁻¹ := by
  rcases lt_trichotomy a.num 0 with h | h | h
  · rw [qinv, if_neg (by omega), if_pos h, Rat.mkRat_eq_divInt,
      show (((-a.num).toNat : ℤ)) = -a.num by omega, Rat.neg_divInt_neg, ← Rat.inv_def']
  · rw [qinv, if_neg (by omega), if_neg (by omega), Rat.num_eq_zero.mp h, inv_zero]
  · rw [qinv, if_pos h, Rat.mkRat_eq_divInt,
      show ((a.num.toNat : ℤ)) = a.num by omega, ← Rat.inv_def']

theorem qdiv_eq (a b : ℚ) : qdiv a b = a / b := by
  rw [qdiv, qmul_eq, qinv_eq, ← div_eq_mul_inv]

theorem mkRat_q (n : ℤ) (d : ℕ) : mkRat n d = (n : ℚ) / (d : ℚ) := by
  rw [Rat.mkRat_eq_divInt, Rat.divInt_eq_div]
  norm_cast

/-! ## Projection lemmas for the tick stages -/

@[simp] theorem ui_gameState (dt : ℚ) (inp : Input) (s : Engine) :
    (updateInput dt inp s).gameState = s.gameState := by
  unfold updateInput; split <;> rfl

@[simp] theorem ui_score (dt : ℚ) (inp : Input) (s : Engine) :
    (updateInput dt inp s).score = s.score := by
  unfold updateInput; split <;> rfl

@[simp] theorem ui_gameTime (dt : ℚ) (inp : Input) (s : Engine) :
    (updateInput dt inp s).gameTime = s.gameTime := by
  unfold updateInput; split <;> rfl

@[simp] theorem ui_cameraY (dt : ℚ) (inp : Input) (s : Engine) :
    (updateInput dt inp s).cameraY = s.cameraY := by
  unfold updateInput; split <;> rfl

@[simp] theorem ui_width (dt : ℚ) (inp : Input) (s : Engine) :
    (updateInput dt inp s).width = s.width := by
  unfold updateInput; split <;> rfl

@[simp] theorem ui_height (dt : ℚ) (inp : Input) (s : Engine) :
    (updateInput dt inp s).height = s.height := by
  unfold updateInput; split <;> rfl

@[simp] theorem ui_balloon (dt : ℚ) (inp : Input) (s : Engine) :
    (updateInput dt inp s).balloon = s.balloon := by
  unfold updateInput; split <;> rfl

@[simp] theorem ui_obstacles (dt : ℚ) (inp : Input) (s : Engine) :
    (updateInput dt inp s).obstacles = s.obstacles := by
  unfold updateInput; split <;> rfl

@[simp] theorem ui_psys (dt : ℚ) (inp : Input) (s : Engine) :
    (updateInput dt inp s).psys = s.psys := by
  unfold updateInput; split <;> rfl

@[simp] theorem ui_settings (dt : ℚ) (inp : Input) (s : Engine) :
    (updateInput dt inp s).settings = s.settings := by
  unfold updateInput; split <;> rfl

@[simp] theorem ui_shield_position (dt : ℚ) (inp : Input) (s : Engine) :
    (updateInput dt inp s).shield.position = s.shield.position := by
  unfold updateInput; split <;> rfl

@[simp] theorem ui_shield_radius (dt : ℚ) (inp : Input) (s : Engine) :
    (updateInput dt inp s).shield.radius = s.shield.radius := by
  unfold updateInput; split <;> rfl

@[simp] theorem ui_shield_lerpFactor (dt : ℚ) (inp : Input) (s : Engine) :
    (updateInput dt inp s).shield.lerpFactor = s.shield.lerpFactor := by
  unfold updateInput; split <;> rfl

/-- The horizontal shield target produced while playing sits inside
[radius, width − radius], and the vertical one at or below (screen
coordinates) the camera-relative top bound. -/
theorem ui_target_bounds (dt : ℚ) (inp : Input) (s : Engine)
    (h : s.gameState = GameState.playing)
    (hr : s.shield.radius ≤ s.width - s.shield.radius) :
    s.shield.radius ≤ (updateInput dt inp s).shield.targetPosition.x ∧
    (updateInput dt inp s).shield.targetPosition.x ≤ s.width - s.shield.radius ∧
    s.cameraY + s.shield.radius ≤ (updateInput dt inp s).shield.targetPosition.y := by
  unfold updateInput
  rw [if_neg (by simp [h])]
  dsimp only
  simp only [qadd_eq, qsub_eq, qmul_eq]
  refine ⟨le_max_left _ _, max_le hr (min_le_left _ _), ?_⟩
  rw [add_comm s.cameraY]
  exact le_max_left _ _

@[simp] theorem ub_gameState (env : Env) (dt : ℚ) (s : Engine) :
    (updateBalloon env dt s).gameState = s.gameState := rfl

@[simp] theorem ub_score (env : Env) (dt : ℚ) (s : Engine) :
    (updateBalloon env dt s).score = s.score := rfl

@[simp] theorem ub_gameTime (env : Env) (dt : ℚ) (s : Engine) :
    (updateBalloon env dt s).gameTime = s.gameTime := rfl

@[simp] theorem ub_cameraY (env : Env) (dt : ℚ) (s : Engine) :
    (updateBalloon env dt s).cameraY = s.cameraY := rfl

@[simp] theorem ub_width (env : Env) (dt : ℚ) (s : Engine) :
    (updateBalloon env dt s).width = s.width := rfl

@[simp] theorem ub_height (env : Env) (dt : ℚ) (s : Engine) :
    (updateBalloon env dt s).height = s.height := rfl

@[simp] theorem ub_shield (env : Env) (dt : ℚ) (s : Engine) :
    (updateBalloon env dt s).shield = s.shield := rfl

@[simp] theorem ub_obstacles (env : Env) (dt : ℚ) (s : Engine) :
    (updateBalloon env dt s).obstacles = s.obstacles := rfl

@[simp] theorem ub_psys (env : Env) (dt : ℚ) (s : Engine) :
    (updateBalloon env dt s).psys = s.psys := rfl

@[simp] theorem ub_settings (env : Env) (dt : ℚ) (s : Engine) :
    (updateBalloon env dt s).settings = s.settings := rfl

@[simp] theorem ub_acceleration (env : Env) (dt : ℚ) (s : Engine) :
    (updateBalloon env dt s).balloon.acceleration = s.balloon.acceleration := rfl

/-- The balloon speed law of updateBalloon, in standard arithmetic. -/
theorem ub_vy (env : Env) (dt : ℚ) (s : Engine) :
    (updateBalloon env dt s).balloon.velocity.y =
      if |s.balloon.velocity.y| < min 160 (80 + s.balloon.acceleration * s.gameTime)
      then s.balloon.velocity.y - s.balloon.acceleration * dt
      else s.balloon.velocity.y := by
  unfold updateBalloon
  dsimp only
  simp only [qadd_eq, qsub_eq, qmul_eq, BALLOON_MAX_VELOCITY, BALLOON_BASE_VELOCITY]

/-- The vertical balloon move of updateBalloon: the new height is the old one
plus the new velocity times dt. -/
theorem ub_py (env : Env) (dt : ℚ) (s : Engine) :
    (updateBalloon env dt s).balloon.position.y =
      s.balloon.position.y + (updateBalloon env dt s).balloon.velocity.y * dt := by
  unfold updateBalloon
  dsimp only
  simp only [qadd_eq, qsub_eq, qmul_eq]

@[simp] theorem us_gameState (dt : ℚ) (s : Engine) :
    (updateShield dt s).gameState = s.gameState := rfl

@[simp] theorem us_score (dt : ℚ) (s : Engine) :
    (updateShield dt s).score = s.score := rfl

@[simp] theorem us_gameTime (dt : ℚ) (s : Engine) :
    (updateShield dt s).gameTime = s.gameTime := rfl

@[simp] theorem us_cameraY (dt : ℚ) (s : Engine) :
    (updateShield dt s).cameraY = s.cameraY := rfl

@[simp] theorem us_width (dt : ℚ) (s : Engine) :
    (updateShield dt s).width = s.width := rfl

@[simp] theorem us_height (dt : ℚ) (s : Engine) :
    (updateShield dt s).height = s.height := rfl

@[simp] theorem us_balloon (dt : ℚ) (s : Engine) :
    (updateShield dt s).balloon = s.balloon := rfl

@[simp] theorem us_obstacles (dt : ℚ) (s : Engine) :
    (updateShield dt s).obstacles = s.obstacles := rfl

@[simp] theorem us_psys (dt : ℚ) (s : Engine) :
    (updateShield dt s).psys = s.psys := rfl

@[simp] theorem us_settings (dt : ℚ) (s : Engine) :
    (updateShield dt s).settings = s.settings := rfl

@[simp] theorem us_radius (dt : ℚ) (s : Engine) :
    (updateShield dt s).shield.radius = s.shield.radius := rfl

@[simp] theorem us_lerpFactor (dt : ℚ) (s : Engine) :
    (updateShield dt s).shield.lerpFactor = s.shield.lerpFactor := rfl

/-- The exponential smoothing move of updateShield, in standard arithmetic. -/
theorem us_position (dt : ℚ) (s : Engine) :
    (updateShield dt s).shield.position =
      ⟨s.shield.position.x +
        (s.shield.targetPosition.x - s.shield.position.x) * s.shield.lerpFactor,
       s.shield.position.y +
        (s.shield.targetPosition.y - s.shield.position.y) * s.shield.lerpFactor⟩ := by
  unfold updateShield
  dsimp only
  simp only [qadd_eq, qsub_eq, qmul_eq]

@[simp] theorem uo_gameState (env : Env) (dt : ℚ) (s : Engine) :
    (updateObstacles env dt s).gameState = s.gameState := rfl

@[simp] theorem uo_score (env : Env) (dt : ℚ) (s : Engine) :
    (updateObstacles env dt s).score = s.score := rfl

@[simp] theorem uo_gameTime (env : Env) (dt : ℚ) (s : Engine) :
    (updateObstacles env dt s).gameTime = s.gameTime := rfl

@[simp] theorem uo_cameraY (env : Env) (dt : ℚ) (s : Engine) :
    (updateObstacles env dt s).cameraY = s.cameraY := rfl

@[simp] theorem uo_width (env : Env) (dt : ℚ) (s : Engine) :
    (updateObstacles env dt s).width = s.width := rfl

@[simp] theorem uo_height (env : Env) (dt : ℚ) (s : Engine) :
    (updateObstacles env dt s).height = s.height := rfl

@[simp] theorem uo_balloon (env : Env) (dt : ℚ) (s : Engine) :
    (updateObstacles env dt s).balloon = s.balloon := rfl

@[simp] theorem uo_shield (env : Env) (dt : ℚ) (s : Engine) :
    (updateObstacles env dt s).shield = s.shield := rfl

@[simp] theorem uo_psys (env : Env) (dt : ℚ) (s : Engine) :
    (updateObstacles env dt s).psys = s.psys := rfl

@[simp] theorem uo_settings (env : Env) (dt : ℚ) (s : Engine) :
    (updateObstacles env dt s).settings = s.settings := rfl

@[simp] theorem uo_obstacles (env : Env) (dt : ℚ) (s : Engine) :
    (updateObstacles env dt s).obstacles = s.obstacles.map (updateObstacle1 env dt s) := rfl

@[simp] theorem usp_gameState (env : Env) (dt : ℚ) (s : Engine) (draws : List ℚ) :
    (updateSpawning env dt s draws).1.gameState = s.gameState := rfl

@[simp] theorem usp_score (env : Env) (dt : ℚ) (s : Engine) (draws : List ℚ) :
    (updateSpawning env dt s draws).1.score = s.score := rfl

@[simp] theorem usp_gameTime (env : Env) (dt : ℚ) (s : Engine) (draws : List ℚ) :
    (updateSpawning env dt s draws).1.gameTime = s.gameTime := rfl

@[simp] theorem usp_cameraY (env : Env) (dt : ℚ) (s : Engine) (draws : List ℚ) :
    (updateSpawning env dt s draws).1.cameraY = s.cameraY := rfl

@[simp] theorem usp_width (env : Env) (dt : ℚ) (s : Engine) (draws : List ℚ) :
    (updateSpawning env dt s draws).1.width = s.width := rfl

@[simp] theorem usp_height (env : Env) (dt : ℚ) (s : Engine) (draws : List ℚ) :
    (updateSpawning env dt s draws).1.height = s.height := rfl

@[simp] theorem usp_balloon (env : Env) (dt : ℚ) (s : Engine) (draws : List ℚ) :
    (updateSpawning env dt s draws).1.balloon = s.balloon := rfl

@[simp] theorem usp_shield (env : Env) (dt : ℚ) (s : Engine) (draws : List ℚ) :
    (updateSpawning env dt s draws).1.shield = s.shield := rfl

@[simp] theorem usp_settings (env : Env) (dt : ℚ) (s : Engine) (draws : List ℚ) :
    (updateSpawning env dt s draws).1.settings = s.settings := rfl

theorem usp_obstacles (env : Env) (dt : ℚ) (s : Engine) (draws : List ℚ) :
    (updateSpawning env dt s draws).1.obstacles =
      s.obstacles ++
        (psysUpdate env s.psys dt
          ⟨qdiv s.width 2, qsub s.cameraY 100, |s.balloon.velocity.y|,
           s.shield.radius, min 1 (qdiv s.gameTime 180)⟩ draws).1 := rfl

@[simp] theorem uc_gameState (s : Engine) : (updateCamera s).gameState = s.gameState := by
  unfold updateCamera; dsimp only; split <;> rfl

@[simp] theorem uc_score (s : Engine) : (updateCamera s).score = s.score := by
  unfold updateCamera; dsimp only; split <;> rfl

@[simp] theorem uc_gameTime (s : Engine) : (updateCamera s).gameTime = s.gameTime := by
  unfold updateCamera; dsimp only; split <;> rfl

@[simp] theorem uc_width (s : Engine) : (updateCamera s).width = s.width := by
  unfold updateCamera; dsimp only; split <;> rfl

@[simp] theorem uc_height (s : Engine) : (updateCamera s).height = s.height := by
  unfold updateCamera; dsimp only; split <;> rfl

@[simp] theorem uc_balloon (s : Engine) : (updateCamera s).balloon = s.balloon := by
  unfold updateCamera; dsimp only; split <;> rfl

@[simp] theorem uc_shield (s : Engine) : (updateCamera s).shield = s.shield := by
  unfold updateCamera; dsimp only; split <;> rfl

@[simp] theorem uc_obstacles (s : Engine) : (updateCamera s).obstacles = s.obstacles := by
  unfold updateCamera; dsimp only; split <;> rfl

@[simp] theorem uc_psys (s : Engine) : (updateCamera s).psys = s.psys := by
  unfold updateCamera; dsimp only; split <;> rfl

@[simp] theorem uc_settings (s : Engine) : (updateCamera s).settings = s.settings := by
  unfold updateCamera; dsimp only; split <;> rfl

/-- The camera only ever scrolls upward (its offset never increases). -/
theorem uc_cameraY_le (s : Engine) : (updateCamera s).cameraY ≤ s.cameraY := by
  unfold updateCamera
  dsimp only
  split
  · rename_i hlt
    simp only [qadd_eq, qsub_eq, CAMERA_DEAD_ZONE] at hlt ⊢
    linarith
  · exact le_refl _

/-- The camera follow rule, in standard arithmetic. -/
theorem uc_cameraY_eq (s : Engine) :
    (updateCamera s).cameraY =
      if s.balloon.position.y - s.height + 300 < s.cameraY - 100
      then s.balloon.position.y - s.height + 300 + 100
      else s.cameraY := by
  unfold updateCamera
  dsimp only
  simp only [qadd_eq, qsub_eq, CAMERA_DEAD_ZONE]
  split <;> rfl

@[simp] theorem cc_score (env : Env) (s : Engine) (draws : List ℚ) :
    (checkCollisions env s draws).1.score = s.score := by
  unfold checkCollisions; split <;> rfl

@[simp] theorem cc_gameTime (env : Env) (s : Engine) (draws : List ℚ) :
    (checkCollisions env s draws).1.gameTime = s.gameTime := by
  unfold checkCollisions; split <;> rfl

@[simp] theorem cc_cameraY (env : Env) (s : Engine) (draws : List ℚ) :
    (checkCollisions env s draws).1.cameraY = s.cameraY := by
  unfold checkCollisions; split <;> rfl

@[simp] theorem cc_width (env : Env) (s : Engine) (draws : List ℚ) :
    (checkCollisions env s draws).1.width = s.width := by
  unfold checkCollisions; split <;> rfl

@[simp] theorem cc_height (env : Env) (s : Engine) (draws : List ℚ) :
    (checkCollisions env s draws).1.height = s.height := by
  unfold checkCollisions; split <;> rfl

@[simp] theorem cc_balloon (env : Env) (s : Engine) (draws : List ℚ) :
    (checkCollisions env s draws).1.balloon = s.balloon := by
  unfold checkCollisions; split <;> rfl

@[simp] theorem cc_psys (env : Env) (s : Engine) (draws : List ℚ) :
    (checkCollisions env s draws).1.psys = s.psys := by
  unfold checkCollisions; split <;> rfl

@[simp] theorem cc_settings (env : Env) (s : Engine) (draws : List ℚ) :
    (checkCollisions env s draws).1.settings = s.settings := by
  unfold checkCollisions; split <;> rfl

@[simp] theorem cc_shield_position (env : Env) (s : Engine) (draws : List ℚ) :
    (checkCollisions env s draws).1.shield.position = s.shield.position := by
  unfold checkCollisions
  split
  · rfl
  · dsimp only
    split <;> rfl

@[simp] theorem cc_shield_radius (env : Env) (s : Engine) (draws : List ℚ) :
    (checkCollisions env s draws).1.shield.radius = s.shield.radius := by
  unfold checkCollisions
  split
  · rfl
  · dsimp only
    split <;> rfl

@[simp] theorem cc_shield_lerpFactor (env : Env) (s : Engine) (draws : List ℚ) :
    (checkCollisions env s draws).1.shield.lerpFactor = s.shield.lerpFactor := by
  unfold checkCollisions
  split
  · rfl
  · dsimp only
    split <;> rfl

/-! ## Whole-tick characterizations -/

theorem tick_gameTime (env : Env) (dt : ℚ) (inp : Input) (draws : List ℚ) (s : Engine) :
    (updatePhysics env dt inp draws s).1.gameTime = s.gameTime + dt := by
  unfold updatePhysics
  dsimp only
  simp [qadd_eq]

theorem tick_width (env : Env) (dt : ℚ) (inp : Input) (draws : List ℚ) (s : Engine) :
    (updatePhysics env dt inp draws s).1.width = s.width := by
  unfold updatePhysics
  dsimp only
  simp

theorem tick_height (env : Env) (dt : ℚ) (inp : Input) (draws : List ℚ) (s : Engine) :
    (updatePhysics env dt inp draws s).1.height = s.height := by
  unfold updatePhysics
  dsimp only
  simp

theorem tick_acceleration (env : Env) (dt : ℚ) (inp : Input) (draws : List ℚ) (s : Engine) :
    (updatePhysics env dt inp draws s).1.balloon.acceleration =
      s.balloon.acceleration := by
  unfold updatePhysics
  dsimp only
  simp

theorem tick_vy (env : Env) (dt : ℚ) (inp : Input) (draws : List ℚ) (s : Engine) :
    (updatePhysics env dt inp draws s).1.balloon.velocity.y =
      if |s.balloon.velocity.y| < min 160 (80 + s.balloon.acceleration * (s.gameTime + dt))
      then s.balloon.velocity.y - s.balloon.acceleration * dt
      else s.balloon.velocity.y := by
  unfold updatePhysics
  dsimp only
  simp [ub_vy, qadd_eq]

theorem tick_py (env : Env) (dt : ℚ) (inp : Input) (draws : List ℚ) (s : Engine) :
    (updatePhysics env dt inp draws s).1.balloon.position.y =
      s.balloon.position.y + (updatePhysics env dt inp draws s).1.balloon.velocity.y * dt := by
  unfold updatePhysics
  dsimp only
  simp [ub_py]

theorem tick_score (env : Env) (dt : ℚ) (inp : Input) (draws : List ℚ) (s : Engine) :
    (updatePhysics env dt inp draws s).1.score =
      max 0 ((s.height - (updatePhysics env dt inp draws s).1.balloon.position.y) / 10) := by
  unfold updatePhysics
  dsimp only
  simp [qdiv_eq, qsub_eq]

theorem tick_cameraY_le (env : Env) (dt : ℚ) (inp : Input) (draws : List ℚ) (s : Engine) :
    (updatePhysics env dt inp draws s).1.cameraY ≤ s.cameraY := by
  unfold updatePhysics
  dsimp only
  simp only [cc_cameraY]
  refine le_trans (uc_cameraY_le _) ?_
  simp

theorem tick_shield_radius (env : Env) (dt : ℚ) (inp : Input) (draws : List ℚ) (s : Engine) :
    (updatePhysics env dt inp draws s).1.shield.radius = s.shield.radius := by
  unfold updatePhysics
  dsimp only
  simp

theorem tick_shield_lerpFactor (env : Env) (dt : ℚ) (inp : Input) (draws : List ℚ)
    (s : Engine) :
    (updatePhysics env dt inp draws s).1.shield.lerpFactor = s.shield.lerpFactor := by
  unfold updatePhysics
  dsimp only
  simp

theorem ui_gameTime_irrel (dt : ℚ) (inp : Input) (s : Engine) (x : ℚ) :
    (updateInput dt inp { s with gameTime := x }).shield.targetPosition =
      (updateInput dt inp s).shield.targetPosition := by
  unfold updateInput
  dsimp only
  split <;> rfl

theorem tick_shield_position (env : Env) (dt : ℚ) (inp : Input) (draws : List ℚ)
    (s : Engine) :
    (updatePhysics env dt inp draws s).1.shield.position =
      ⟨s.shield.position.x +
        ((updateInput dt inp s).shield.targetPosition.x - s.shield.position.x) *
          s.shield.lerpFactor,
       s.shield.position.y +
        ((updateInput dt inp s).shield.targetPosition.y - s.shield.position.y) *
          s.shield.lerpFactor⟩ := by
  unfold updatePhysics
  dsimp only
  simp [us_position, ui_gameTime_irrel]

/-! ## Fields preserved by the engine commands -/

theorem physicsStep_eq : physicsStep = 1 / 120 := by
  rw [physicsStep, mkRat_q]; norm_num

theorem pauseGame_fields (s : Engine) :
    (pauseGame s).1.width = s.width ∧ (pauseGame s).1.height = s.height ∧
    (pauseGame s).1.balloon = s.balloon ∧ (pauseGame s).1.score = s.score ∧
    (pauseGame s).1.gameTime = s.gameTime ∧ (pauseGame s).1.shield = s.shield ∧
    (pauseGame s).1.cameraY = s.cameraY := by
  unfold pauseGame; split <;> exact ⟨rfl, rfl, rfl, rfl, rfl, rfl, rfl⟩

theorem resumeGame_fields (s : Engine) :
    (resumeGame s).1.width = s.width ∧ (resumeGame s).1.height = s.height ∧
    (resumeGame s).1.balloon = s.balloon ∧ (resumeGame s).1.score = s.score ∧
    (resumeGame s).1.gameTime = s.gameTime ∧ (resumeGame s).1.shield = s.shield ∧
    (resumeGame s).1.cameraY = s.cameraY := by
  unfold resumeGame; split <;> exact ⟨rfl, rfl, rfl, rfl, rfl, rfl, rfl⟩

/-- Transfers the core invariant along a step that leaves the relevant
fields unchanged. -/
theorem invCore_of_fields (w h : ℚ) (s s' : Engine)
    (h1 : s'.width = s.width) (h2 : s'.height = s.height)
    (h3 : s'.balloon = s.balloon) (h4 : s'.score = s.score)
    (h5 : s'.gameTime = s.gameTime) (hc : InvCore w h s) : InvCore w h s' := by
  refine ⟨?_, ?_, ?_, ?_, ?_, ?_, ?_⟩
  · rw [h1]; exact hc.hw
  · rw [h2]; exact hc.hh
  · rw [h3]; exact hc.hacc
  · rw [h3, h5]; exact hc.hvy
  · rw [h5]; exact hc.htime
  · rw [h4]; exact hc.hscore0
  · rw [h4, h3]; exact hc.hscore

theorem invCore_init (w h : ℚ) : InvCore w h (initEngine w h) := by
  refine ⟨rfl, rfl, ?_, ?_, ⟨0, by show (0 : ℚ) = (0 : ℕ) / 120; norm_num⟩, le_refl 0, ?_⟩
  · rfl
  · show -BALLOON_BASE_VELOCITY = -(min 160 (80 + 4 * (0 : ℚ)))
    rw [BALLOON_BASE_VELOCITY]; norm_num
  · exact le_max_left 0 _

theorem invCore_start (w h : ℚ) (s : Engine) (hc : InvCore w h s) :
    InvCore w h (startGame s).1 := by
  refine ⟨hc.hw, hc.hh, hc.hacc, ?_, ⟨0, by show (0 : ℚ) = (0 : ℕ) / 120; norm_num⟩,
    le_refl 0, ?_⟩
  · show -BALLOON_BASE_VELOCITY = -(min 160 (80 + 4 * (0 : ℚ)))
    rw [BALLOON_BASE_VELOCITY]; norm_num
  · exact le_max_left 0 _

theorem invCore_tick (env : Env) (w h : ℚ) (s : Engine) (inp : Input) (draws : List ℚ)
    (hc : InvCore w h s) : InvCore w h (updatePhysics env physicsStep inp draws s).1 := by
  obtain ⟨k, hk⟩ := hc.htime
  have hdt : physicsStep = (1 : ℚ) / 120 := physicsStep_eq
  have hk0 : (0 : ℚ) ≤ (k : ℚ) := Nat.cast_nonneg k
  refine ⟨?_, ?_, ?_, ?_, ?_, ?_, ?_⟩
  · rw [tick_width]; exact hc.hw
  · rw [tick_height]; exact hc.hh
  · rw [tick_acceleration]; exact hc.hacc
  · rw [tick_vy, tick_gameTime, hc.hacc, hc.hvy, hk, hdt]
    by_cases hcap : 80 + 4 * ((k : ℚ) / 120) < 160
    · have h1 : k < 2400 := by exact_mod_cast (by linarith : (k : ℚ) < 2400)
      have hklt : (k : ℚ) ≤ 2399 := by exact_mod_cast Nat.lt_succ_iff.mp h1
      have hmin : min (160 : ℚ) (80 + 4 * ((k : ℚ) / 120)) = 80 + 4 * ((k : ℚ) / 120) :=
        min_eq_right (by linarith)
      have hmin' : min (160 : ℚ) (80 + 4 * ((k : ℚ) / 120 + 1 / 120)) =
          80 + 4 * ((k : ℚ) / 120 + 1 / 120) :=
        min_eq_right (by linarith)
      rw [hmin, hmin', abs_neg, abs_of_nonneg (by linarith)]
      rw [if_pos (by linarith)]
      ring
    · have hge : (160 : ℚ) ≤ 80 + 4 * ((k : ℚ) / 120) := by linarith
      have hmin : min (160 : ℚ) (80 + 4 * ((k : ℚ) / 120)) = 160 := min_eq_left hge
      have hmin' : min (160 : ℚ) (80 + 4 * ((k : ℚ) / 120 + 1 / 120)) = 160 :=
        min_eq_left (by linarith)
      rw [hmin, hmin', abs_neg, abs_of_nonneg (by norm_num)]
      rw [if_neg (by norm_num)]
  · refine ⟨k + 1, ?_⟩
    rw [tick_gameTime, hk, hdt]
    push_cast
    ring
  · rw [tick_score]; exact le_max_left _ _
  · rw [tick_score, hc.hh]

theorem invCore_step (env : Env) (w h : ℚ) (s s' : Engine)
    (hc : InvCore w h s) (hs : Step env s s') : InvCore w h s' := by
  cases hs with
  | tick inp draws hp => exact invCore_tick env w h s inp draws hc
  | start => exact invCore_start w h s hc
  | pause =>
    obtain ⟨h1, h2, h3, h4, h5, _, _⟩ := pauseGame_fields s
    exact invCore_of_fields w h s _ h1 h2 h3 h4 h5 hc
  | resume =>
    obtain ⟨h1, h2, h3, h4, h5, _, _⟩ := resumeGame_fields s
    exact invCore_of_fields w h s _ h1 h2 h3 h4 h5 hc
  | sens v => exact invCore_of_fields w h s _ rfl rfl rfl rfl rfl hc
  | debug => exact invCore_of_fields w h s _ rfl rfl rfl rfl rfl hc

theorem invCore_reachable (env : Env) (w h : ℚ) (s : Engine)
    (hr : Reachable env w h s) : InvCore w h s := by
  induction hr with
  | refl => exact invCore_init w h
  | tail _ hstep ih => exact invCore_step env w h _ _ ih hstep

/-! ## The shield invariant -/

theorem lerp_bound_lower (lo p t : ℚ) (hp : lo ≤ p) (ht : lo ≤ t) :
    lo ≤ p + (t - p) * (7 / 25) := by nlinarith

theorem lerp_bound_upper (hi p t : ℚ) (hp : p ≤ hi) (ht : t ≤ hi) :
    p + (t - p) * (7 / 25) ≤ hi := by nlinarith

theorem invShield_of_fields (w h : ℚ) (s s' : Engine)
    (h1 : s'.width = s.width) (h2 : s'.height = s.height)
    (h3 : s'.shield = s.shield) (h4 : s'.cameraY = s.cameraY)
    (hc : InvShield w h s) : InvShield w h s' := by
  refine ⟨?_, ?_, ?_, ?_, ?_, ?_, ?_⟩
  · rw [h1]; exact hc.hw
  · rw [h2]; exact hc.hh
  · rw [h3]; exact hc.hsr
  · rw [h3]; exact hc.hsl
  · rw [h3]; exact hc.hx1
  · rw [h3]; exact hc.hx2
  · rw [h3, h4]; exact hc.hy1

theorem shield_lerp_init : SHIELD_LERP_FACTOR = 7 / 25 := by
  rw [SHIELD_LERP_FACTOR, mkRat_q]; norm_num

theorem invShield_init (w h : ℚ) (hw : 84 ≤ w) (hh : 192 ≤ h) :
    InvShield w h (initEngine w h) := by
  have hwdiv : (initEngine w h).shield.position.x = w / 2 := by
    show qdiv w 2 = w / 2
    rw [qdiv_eq]
  have hy : (initEngine w h).shield.position.y = h - 150 := by
    show qsub h 150 = h - 150
    rw [qsub_eq]
  refine ⟨rfl, rfl, rfl, shield_lerp_init, ?_, ?_, ?_⟩
  · rw [hwdiv]; linarith
  · rw [hwdiv]; show w / 2 ≤ w - 42; linarith
  · rw [hy]; show (0 : ℚ) + 42 ≤ h - 150; linarith

theorem invShield_start (w h : ℚ) (s : Engine) (hw : 84 ≤ w) (hh : 192 ≤ h)
    (hc : InvShield w h s) : InvShield w h (startGame s).1 := by
  have hwdiv : (startGame s).1.shield.position.x = s.width / 2 := by
    show qdiv s.width 2 = s.width / 2
    rw [qdiv_eq]
  have hy : (startGame s).1.shield.position.y = s.height - 150 := by
    show qsub s.height 150 = s.height - 150
    rw [qsub_eq]
  refine ⟨hc.hw, hc.hh, hc.hsr, hc.hsl, ?_, ?_, ?_⟩
  · rw [hwdiv, hc.hw]; linarith
  · rw [hwdiv, hc.hw]; show w / 2 ≤ w - 42; linarith
  · rw [hy, hc.hh]; show (0 : ℚ) + 42 ≤ h - 150; linarith

theorem invShield_tick (env : Env) (w h : ℚ) (s : Engine) (inp : Input) (draws : List ℚ)
    (hp : s.gameState = GameState.playing) (hc : InvShield w h s) :
    InvShield w h (updatePhysics env physicsStep inp draws s).1 := by
  have hpos := tick_shield_position env physicsStep inp draws s
  have hrw : s.shield.radius ≤ s.width - s.shield.radius := by
    rw [hc.hsr, hc.hw]; linarith [hc.hx1, hc.hx2]
  obtain ⟨ht1, ht2, ht3⟩ := ui_target_bounds physicsStep inp s hp hrw
  rw [hc.hsr] at ht1 ht2 ht3
  rw [hc.hw] at ht2
  refine ⟨?_, ?_, ?_, ?_, ?_, ?_, ?_⟩
  · rw [tick_width]; exact hc.hw
  · rw [tick_height]; exact hc.hh
  · rw [tick_shield_radius]; exact hc.hsr
  · rw [tick_shield_lerpFactor]; exact hc.hsl
  · rw [hpos]
    dsimp only
    rw [hc.hsl]
    exact lerp_bound_lower 42 _ _ hc.hx1 ht1
  · rw [hpos]
    dsimp only
    rw [hc.hsl]
    exact lerp_bound_upper (w - 42) _ _ hc.hx2 ht2
  · have hcam := tick_cameraY_le env physicsStep inp draws s
    have hy' : s.cameraY + 42 ≤
        (updatePhysics env physicsStep inp draws s).1.shield.position.y := by
      rw [hpos]
      dsimp only
      rw [hc.hsl]
      exact lerp_bound_lower (s.cameraY + 42) _ _ hc.hy1 ht3
    linarith

theorem invShield_step (env : Env) (w h : ℚ) (s s' : Engine) (hw : 84 ≤ w) (hh : 192 ≤ h)
    (hc : InvShield w h s) (hs : Step env s s') : InvShield w h s' := by
  cases hs with
  | tick inp draws hp => exact invShield_tick env w h s inp draws hp hc
  | start => exact invShield_start w h s hw hh hc
  | pause =>
    obtain ⟨h1, h2, _, _, _, h6, h7⟩ := pauseGame_fields s
    exact invShield_of_fields w h s _ h1 h2 h6 h7 hc
  | resume =>
    obtain ⟨h1, h2, _, _, _, h6, h7⟩ := resumeGame_fields s
    exact invShield_of_fields w h s _ h1 h2 h6 h7 hc
  | sens v => exact invShield_of_fields w h s _ rfl rfl rfl rfl hc
  | debug => exact invShield_of_fields w h s _ rfl rfl rfl rfl hc

theorem invShield_reachable (env : Env) (w h : ℚ) (s : Engine)
    (hw : 84 ≤ w) (hh : 192 ≤ h) (hr : Reachable env w h s) : InvShield w h s := by
  induction hr with
  | refl => exact invShield_init w h hw hh
  | tail _ hstep ih => exact invShield_step env w h _ _ hw hh ih hstep

/-! ## Claim C4 -/

/-- C4: in every reachable engine state — in particular right after the
balloon update of any physics tick taken while playing, since no later stage
of the tick touches the balloon's velocity or the clock — the magnitude of
the balloon's vertical speed is at most
min(globalCap, baseSpeed + acceleration × elapsed play time), in exact
rational arithmetic. -/
theorem C4_balloon_speed (env : Env) (w h : ℚ) (s : Engine) (hr : Reachable env w h s) :
    |s.balloon.velocity.y| ≤
      min BALLOON_MAX_VELOCITY
        (BALLOON_BASE_VELOCITY + BALLOON_ACCELERATION * s.gameTime) := by
  have hc := invCore_reachable env w h s hr
  obtain ⟨k, hk⟩ := hc.htime
  have hk0 : (0 : ℚ) ≤ (k : ℚ) := Nat.cast_nonneg k
  have hmin0 : (0 : ℚ) ≤ min 160 (80 + 4 * s.gameTime) := by
    rw [hk]
    exact le_min (by norm_num) (by positivity)
  rw [hc.hvy, BALLOON_MAX_VELOCITY, BALLOON_BASE_VELOCITY, BALLOON_ACCELERATION,
    abs_neg, abs_of_nonneg hmin0]

/-- Witness for C4 at the freshly constructed engine. -/
theorem C4_balloon_speed_witness :
    |(initEngine 1920 1080).balloon.velocity.y| ≤
      min BALLOON_MAX_VELOCITY
        (BALLOON_BASE_VELOCITY + BALLOON_ACCELERATION * (initEngine 1920 1080).gameTime) :=
  C4_balloon_speed envId 1920 1080 (initEngine 1920 1080) Relation.ReflTransGen.refl

/-! ## Claim C10 -/

/-- C10: in every reachable engine state, getScore returns a non-negative
value: each tick recomputes the score as max(0, ·) and every reset puts it
back to 0. -/
theorem C10_score_nonneg (env : Env) (w h : ℚ) (s : Engine) (hr : Reachable env w h s) :
    0 ≤ getScore s := by
  have hc := invCore_reachable env w h s hr
  show (0 : ℚ) ≤ s.score
  exact hc.hscore0

/-- Witness for C10 at the freshly constructed engine. -/
theorem C10_score_nonneg_witness : 0 ≤ getScore (initEngine 1920 1080) :=
  C10_score_nonneg envId 1920 1080 (initEngine 1920 1080) Relation.ReflTransGen.refl

/-! ## Claim C2 (amended) -/

/-- C2 amended: after every physics tick of a run the score equals
max(0, (viewportHeight − balloon.y) / 10) — altitude above the bottom edge of
the viewport scaled to display units, which exceeds the net altitude climbed
by 10 because the balloon starts 100 px above that edge — and the score never
decreases across the ticks of a run. -/
theorem C2_score_formula (env : Env) (w h : ℚ) (s : Engine) (inp : Input)
    (draws : List ℚ) (hr : Reachable env w h s) (hp : s.gameState = GameState.playing) :
    (updatePhysics env physicsStep inp draws s).1.score =
      max 0 ((h - (updatePhysics env physicsStep inp draws s).1.balloon.position.y) / 10) ∧
    s.score ≤ (updatePhysics env physicsStep inp draws s).1.score := by
  have hc := invCore_reachable env w h s hr
  have heq : (updatePhysics env physicsStep inp draws s).1.score =
      max 0 ((h - (updatePhysics env physicsStep inp draws s).1.balloon.position.y) / 10) := by
    rw [tick_score, hc.hh]
  refine ⟨heq, ?_⟩
  obtain ⟨k, hk⟩ := hc.htime
  have hk0 : (0 : ℚ) ≤ (k : ℚ) := Nat.cast_nonneg k
  have hneg : (updatePhysics env physicsStep inp draws s).1.balloon.velocity.y ≤ -80 := by
    rw [tick_vy, hc.hvy, hc.hacc]
    have hminb : (80 : ℚ) ≤ min 160 (80 + 4 * s.gameTime) := by
      rw [hk]
      exact le_min (by norm_num) (by linarith)
    have hps : physicsStep = (1 : ℚ) / 120 := physicsStep_eq
    split
    · rw [hps]; linarith
    · linarith
  have hy' : (updatePhysics env physicsStep inp draws s).1.balloon.position.y ≤
      s.balloon.position.y := by
    have hpy := tick_py env physicsStep inp draws s
    have hps0 : (0 : ℚ) < physicsStep := by
      rw [physicsStep_eq]; norm_num
    have hmul := mul_le_mul_of_nonneg_right
      (le_trans hneg (by norm_num : (-80 : ℚ) ≤ 0)) (le_of_lt hps0)
    rw [zero_mul] at hmul
    rw [hpy]
    linarith
  calc s.score ≤ max 0 ((h - s.balloon.position.y) / 10) := hc.hscore
    _ ≤ max 0 ((h - (updatePhysics env physicsStep inp draws s).1.balloon.position.y) / 10) := by
        refine max_le_max (le_refl 0) ?_
        gcongr
    _ = (updatePhysics env physicsStep inp draws s).1.score := heq.symm

/-- Witness for C2 at the first tick of a run. -/
theorem C2_score_formula_witness :
    (updatePhysics envId physicsStep c2Input [] startState).1.score =
      max 0 ((1080 -
        (updatePhysics envId physicsStep c2Input [] startState).1.balloon.position.y) / 10) ∧
    startState.score ≤ (updatePhysics envId physicsStep c2Input [] startState).1.score :=
  C2_score_formula envId 1920 1080 startState c2Input []
    (Relation.ReflTransGen.tail Relation.ReflTransGen.refl (Step.start _)) rfl

/-! ## Claim C3 (amended) -/

/-- C3 amended: with the shield-size setting fixed for the run, every
reachable state keeps the shield horizontally within
[radius, viewportWidth − radius] and vertically at or below the
camera-relative top bound cameraY + radius. The bottom bound
position.y ≤ cameraY + viewportHeight − radius of the original claim is the
part that fails (see the counterexample). -/
theorem C3_shield_bounds (env : Env) (w h : ℚ) (s : Engine) (hw : 84 ≤ w)
    (hh : 192 ≤ h) (hr : Reachable env w h s) :
    s.shield.radius ≤ s.shield.position.x ∧
    s.shield.position.x ≤ w - s.shield.radius ∧
    s.cameraY + s.shield.radius ≤ s.shield.position.y := by
  have hc := invShield_reachable env w h s hw hh hr
  rw [hc.hsr]
  exact ⟨hc.hx1, hc.hx2, hc.hy1⟩

/-- Witness for C3 at the start of a run. -/
theorem C3_shield_bounds_witness :
    startState.shield.radius ≤ startState.shield.position.x ∧
    startState.shield.position.x ≤ 1920 - startState.shield.radius ∧
    startState.cameraY + startState.shield.radius ≤ startState.shield.position.y :=
  C3_shield_bounds envId 1920 1080 startState (by norm_num) (by norm_num)
    (Relation.ReflTransGen.tail Relation.ReflTransGen.refl (Step.start _))

/-! ## Claim C8 -/

/-- C8: after any physics tick — for any environment, timestep, input,
random draws and starting state, so in particular also for a tick whose
balloon collision check just switched the state to gameOver — every obstacle
still held by the engine has active = true, because the tick ends by purging
inactive obstacles. -/
theorem C8_obstacles_active (env : Env) (dt : ℚ) (inp : Input) (draws : List ℚ)
    (s : Engine) :
    ∀ o ∈ (updatePhysics env dt inp draws s).1.obstacles, o.active = true := by
  unfold updatePhysics
  dsimp only
  intro o ho
  exact (List.mem_filter.mp ho).2

set_option maxRecDepth 40000 in
/-- Witness for C8: one tick from a fresh run carrying a motionless far-left
block; the block survives the tick unchanged and is indeed active. -/
theorem C8_obstacles_active_witness :
    c8Block ∈ (updatePhysics envId physicsStep c2Input [] c8State).1.obstacles ∧
    c8Block.active = true :=
  ⟨by decide, C8_obstacles_active envId physicsStep c2Input [] c8State c8Block (by decide)⟩

/-! ## Claim C9 -/

/-- C9: pauseGame in any state other than playing, and resumeGame in any
state other than paused, leave the engine state unchanged and emit no
notification. -/
theorem C9_pause_resume_noop (s : Engine) :
    (s.gameState ≠ GameState.playing → pauseGame s = (s, [])) ∧
    (s.gameState ≠ GameState.paused → resumeGame s = (s, [])) := by
  constructor
  · intro h
    rw [pauseGame, if_neg h]
  · intro h
    rw [resumeGame, if_neg h]

/-- Witness for C9 at the freshly constructed engine (state menu). -/
theorem C9_pause_resume_noop_witness :
    pauseGame (initEngine 1920 1080) = (initEngine 1920 1080, []) ∧
    resumeGame (initEngine 1920 1080) = (initEngine 1920 1080, []) :=
  ⟨(C9_pause_resume_noop (initEngine 1920 1080)).1 (by decide),
   (C9_pause_resume_noop (initEngine 1920 1080)).2 (by decide)⟩

/-! ## Claim C2 counterexample -/

set_option maxRecDepth 40000 in
/-- C2 counterexample: one tick into a fresh run (viewport 1920×1080, the
pointer resting on the shield, no keys held, all random draws 0, sine oracle
0), the score is 362401/36000 ≈ 10.07 while the net altitude climbed since
the start of the run divided by 10 is only 2401/36000 ≈ 0.067: the score
measures altitude above the bottom edge of the viewport, not the distance
climbed above the starting position. -/
theorem C2_score_cex :
    c2State.score ≠
      (startState.balloon.position.y - c2State.balloon.position.y) / 10 := by
  have h1 : c2State.score = qdiv 362401 36000 := by decide
  have h2 : qsub startState.balloon.position.y c2State.balloon.position.y =
      qdiv 2401 3600 := by decide
  rw [h1, qdiv_eq, ← qsub_eq, h2, qdiv_eq]
  norm_num

/-! ## Claim C1 -/

/-- C1 counterexample: checkCollision dispatches on the second argument's
type only, so for a circular spike against a rectangular block the two
argument orders run different geometry tests and even disagree on whether an
overlap exists; and at zero distance between two circular bodies both orders
return the fixed normal (1, 0), which is not its own negation. -/
theorem C1_collision_swap_cex :
    (checkCollision (fun q => q) c1Spike c1Block).isSome = true ∧
    (checkCollision (fun q => q) c1Block c1Spike).isSome = false ∧
    ∃ i j, checkCollision (fun q => q) c1Coin1 c1Coin2 = some i ∧
      checkCollision (fun q => q) c1Coin2 c1Coin1 = some j ∧
      i.normal ≠ j.normal.neg := by
  refine ⟨by decide, by decide, ⟨7, ⟨1, 0⟩, ⟨5, 5⟩⟩, ⟨7, ⟨1, 0⟩, ⟨5, 5⟩⟩,
    by decide, by decide, by decide⟩

/-- C1 amended: for two objects of which neither is a rectangular archetype
(block or sweeper), and any sqrt oracle that vanishes exactly at 0,
checkCollision gives the same overlap verdict in both argument orders; when
both orders report a collision, the normals are exact negatives whenever the
centers are distinct, while in the zero-distance degenerate case both orders
return the same fixed normal (1, 0). For pairs involving a rectangular
archetype the swap symmetry fails (see the counterexample). -/
theorem C1_collision_swap (sqrtQ : ℚ → ℚ)
    (hs : ∀ q : ℚ, 0 ≤ q → (sqrtQ q = 0 ↔ q = 0))
    (a b : GameObject)
    (ha : ¬(a.type = ObjType.block ∨ a.type = ObjType.sweeper))
    (hb : ¬(b.type = ObjType.block ∨ b.type = ObjType.sweeper)) :
    ((checkCollision sqrtQ a b).isSome ↔ (checkCollision sqrtQ b a).isSome) ∧
    (∀ i j, checkCollision sqrtQ a b = some i → checkCollision sqrtQ b a = some j →
      (a.position ≠ b.position → j.normal = i.normal.neg) ∧
      (a.position = b.position → i.normal = ⟨1, 0⟩ ∧ j.normal = ⟨1, 0⟩)) := by
  unfold checkCollision
  rw [if_neg hb, if_neg ha]
  unfold circleVsCircle
  dsimp only
  simp only [qadd_eq, qmul_eq, qsub_eq, qdiv_eq]
  have hdx : a.position.x - b.position.x = -(b.position.x - a.position.x) := by ring
  have hdy : a.position.y - b.position.y = -(b.position.y - a.position.y) := by ring
  rw [hdx, hdy]
  have hdsq : -(b.position.x - a.position.x) * -(b.position.x - a.position.x) +
      -(b.position.y - a.position.y) * -(b.position.y - a.position.y) =
      (b.position.x - a.position.x) * (b.position.x - a.position.x) +
      (b.position.y - a.position.y) * (b.position.y - a.position.y) := by ring
  rw [hdsq]
  have hrsum : b.radius + a.radius = a.radius + b.radius := by ring
  rw [hrsum]
  set dx := b.position.x - a.position.x with hdxd
  set dy := b.position.y - a.position.y with hdyd
  set dsq := dx * dx + dy * dy with hdsqd
  have hq0 : (0 : ℚ) ≤ dsq :=
    add_nonneg (mul_self_nonneg dx) (mul_self_nonneg dy)
  by_cases hcol : dsq ≤ (a.radius + b.radius) * (a.radius + b.radius)
  · rw [if_pos hcol, if_pos hcol]
    by_cases hz : sqrtQ dsq = 0
    · rw [if_pos hz, if_pos hz]
      have hdsq0 : dsq = 0 := (hs dsq hq0).mp hz
      have hx0 : dx = 0 := by nlinarith [mul_self_nonneg dx, mul_self_nonneg dy]
      have hy0 : dy = 0 := by nlinarith [mul_self_nonneg dx, mul_self_nonneg dy]
      have hpos : a.position = b.position := by
        ext
        · have := hdxd
          nlinarith [hx0]
        · nlinarith [hy0]
      refine ⟨by simp, ?_⟩
      intro i j hi hj
      obtain rfl := Option.some.inj hi
      obtain rfl := Option.some.inj hj
      exact ⟨fun hne => absurd hpos hne, fun _ => ⟨rfl, rfl⟩⟩
    · rw [if_neg hz, if_neg hz]
      refine ⟨by simp, ?_⟩
      intro i j hi hj
      obtain rfl := Option.some.inj hi
      obtain rfl := Option.some.inj hj
      constructor
      · intro _
        show (⟨-dx / sqrtQ dsq, -dy / sqrtQ dsq⟩ : Vec2) = Vec2.neg ⟨dx / sqrtQ dsq, dy / sqrtQ dsq⟩
        unfold Vec2.neg
        dsimp only
        rw [neg_div, neg_div]
      · intro heq
        exfalso
        apply hz
        refine (hs dsq hq0).mpr ?_
        rw [hdsqd, hdxd, hdyd, heq]
        ring
  · rw [if_neg hcol, if_neg hcol]
    refine ⟨by simp, ?_⟩
    intro i j hi _
    exact absurd hi (by simp)

/-- Witness for C1 at two distinct circular bodies, sqrt oracle the
identity. -/
theorem C1_collision_swap_witness :
    ((checkCollision (fun q => q) c1A c1B).isSome ↔
      (checkCollision (fun q => q) c1B c1A).isSome) ∧
    (∀ i j, checkCollision (fun q => q) c1A c1B = some i →
        checkCollision (fun q => q) c1B c1A = some j →
      (c1A.position ≠ c1B.position → j.normal = i.normal.neg) ∧
      (c1A.position = c1B.position → i.normal = ⟨1, 0⟩ ∧ j.normal = ⟨1, 0⟩)) :=
  C1_collision_swap (fun q => q) (fun _ _ => Iff.rfl) c1A c1B (by decide) (by decide)

/-! ## Claim C5 -/

/-- C5 counterexample: with W and S both held — a key set containing
directional keys — the per-axis deltas cancel to zero, the override branch is
not taken, and the pointer position still determines the target. -/
theorem C5_keyboard_override_cex :
    (updateInput physicsStep ⟨⟨100, 500⟩, true, false, true, false⟩ startState
      ).shield.targetPosition ≠
    (updateInput physicsStep ⟨⟨200, 500⟩, true, false, true, false⟩ startState
      ).shield.targetPosition := by
  decide

/-- C5 amended: on a playing tick whose held keys produce a nonzero net
keyboard delta, the shield target is the clamp of (current position +
delta), and the pointer position has no influence at all; when the held
directional keys cancel exactly (for example W together with S), the
pointer-derived target is used instead (see the counterexample). -/
theorem C5_keyboard_override (dt : ℚ) (inp : Input) (s : Engine)
    (hp : s.gameState = GameState.playing)
    (hd : inputKeyDelta dt inp ≠ (0, 0)) :
    (updateInput dt inp s).shield.targetPosition =
      ⟨max s.shield.radius (min (s.width - s.shield.radius)
          (s.shield.position.x + (inputKeyDelta dt inp).1)),
       max (s.shield.radius + s.cameraY) (min (s.height + s.cameraY - s.shield.radius)
          (s.shield.position.y + (inputKeyDelta dt inp).2))⟩ ∧
    (∀ m : Vec2, updateInput dt { inp with mouseWorld := m } s = updateInput dt inp s) := by
  have hd' : (inputKeyDelta dt inp).1 ≠ 0 ∨ (inputKeyDelta dt inp).2 ≠ 0 := by
    by_contra hcon
    push_neg at hcon
    exact hd (Prod.ext hcon.1 hcon.2)
  rw [inputKeyDelta] at hd'
  dsimp only at hd'
  constructor
  · unfold updateInput
    rw [if_neg (by simp [hp])]
    dsimp only
    rw [if_pos hd', if_pos hd']
    rw [inputKeyDelta]
    dsimp only
    simp only [qadd_eq, qsub_eq, qmul_eq]
  · intro m
    have hng : ¬(s.gameState ≠ GameState.playing) := by simp [hp]
    unfold updateInput
    rw [if_neg hng, if_neg hng]
    dsimp only
    simp only [if_pos hd']

/-- Witness for C5 with only W held. -/
theorem C5_keyboard_override_witness :
    (updateInput physicsStep ⟨⟨100, 500⟩, true, false, false, false⟩ startState
      ).shield.targetPosition =
      ⟨max startState.shield.radius (min (startState.width - startState.shield.radius)
          (startState.shield.position.x +
            (inputKeyDelta physicsStep ⟨⟨100, 500⟩, true, false, false, false⟩).1)),
       max (startState.shield.radius + startState.cameraY)
          (min (startState.height + startState.cameraY - startState.shield.radius)
          (startState.shield.position.y +
            (inputKeyDelta physicsStep ⟨⟨100, 500⟩, true, false, false, false⟩).2))⟩ ∧
    (∀ m : Vec2,
      updateInput physicsStep
        { (⟨⟨100, 500⟩, true, false, false, false⟩ : Input) with mouseWorld := m } startState =
      updateInput physicsStep ⟨⟨100, 500⟩, true, false, false, false⟩ startState) :=
  C5_keyboard_override physicsStep ⟨⟨100, 500⟩, true, false, false, false⟩ startState rfl
    (by decide)

/-! ## Claim C6 -/

/-- C6: the code contradicts the claim at the degenerate configuration. With
the shard's center exactly on the shield's center the squared distance is 0,
a collision is detected (distance 0 is within the radius sum), but
handleShieldCollision takes the zero-distance early return, which skips the
shard deactivation: the shard stays active for every random draw stream and
whatever collision info was computed. -/
theorem C6_shard_zero_distance (draws : List ℚ) (ci : CollisionInfo) :
    (checkCollision envId.sqrtQ (shieldGO c6Shield) (obstacleGO c6Shard)).isSome = true ∧
    (handleShieldCollision envId c6Shield c6Shard ci draws).1.active = true := by
  exact ⟨by decide, rfl⟩

/-! ## Claim C7 -/

theorem selectWeightedGo_mem (r : ℚ) (ps : List PatternDef) (p : PatternDef)
    (h : selectWeightedGo r ps = some p) : p ∈ ps := by
  induction ps generalizing r with
  | nil => simp [selectWeightedGo] at h
  | cons q rest ih =>
    simp only [selectWeightedGo] at h
    split at h
    · obtain rfl := Option.some.inj h
      exact List.mem_cons_self _ _
    · exact List.mem_cons_of_mem q (ih _ h)

theorem selectWeightedPattern_mem (r : ℚ) (ps : List PatternDef) (hne : ps ≠ []) :
    selectWeightedPattern r ps ∈ ps := by
  rw [selectWeightedPattern]
  split
  · rename_i p hp
    exact selectWeightedGo_mem _ _ _ hp
  · rw [List.getLast?_eq_getLast _ hne]
    exact List.getLast_mem hne

theorem executePattern_lastName (env : Env) (sys : PatternSystemState)
    (pattern : PatternDef) (params : PatternParams) (draws : List ℚ) :
    ((executePattern env sys pattern params draws).2.1.patternHistory).getLast? =
      some pattern.name := by
  unfold executePattern
  dsimp only
  split
  · rename_i hlong
    rcases hhist : sys.patternHistory with _ | ⟨a, rest⟩
    · rw [hhist] at hlong
      simp at hlong
    · rw [List.cons_append, List.drop_one, List.tail_cons]
      exact List.getLast?_concat _
  · exact List.getLast?_concat _

/-- C7 amended: whenever at least three selections have already happened in
the run and the two most recent both returned the name N, and the
altitude-filtered pool holds at least one pattern named differently, the
next selection does not return N. (Without the three-selections-so-far
condition the rule does not fire; see the counterexample, where the third
selection repeats N although the two preceding selections both returned N.) -/
theorem C7_antirepeat (env : Env) (sys : PatternSystemState) (params : PatternParams)
    (draws : List ℚ) (N : String)
    (hlen : 3 ≤ sys.patternHistory.length)
    (hlast : sys.patternHistory.drop (sys.patternHistory.length - 2) = [N, N])
    (halt : 1 ≤ ((patternsList.filter
        (fun p => p.minAltitude ≤ qdiv |params.spawnY| 10)).filter
        (fun p => p.name ≠ N)).length) :
    ((spawnPattern env sys params draws).2.1.patternHistory).getLast? ≠ some N := by
  unfold spawnPattern
  dsimp only
  have hAne : patternsList.filter
      (fun p => p.minAltitude ≤ qdiv |params.spawnY| 10) ≠ [] := by
    intro hcon
    rw [hcon] at halt
    simp at halt
  rw [if_neg (by simpa [List.isEmpty_iff] using hAne)]
  set A := patternsList.filter (fun p => p.minAltitude ≤ qdiv |params.spawnY| 10) with hA
  set pat := selectWeightedPattern (nextRand draws).1 A with hpat
  by_cases hname : pat.name = N
  · rw [if_pos ⟨hlen, by rw [hlast]; simp [hname]⟩]
    have hBne : A.filter (fun p => p.name ≠ pat.name) ≠ [] := by
      intro hcon
      have : A.filter (fun p => p.name ≠ N) = [] := by rw [← hname]; exact hcon
      rw [this] at halt
      simp at halt
    rw [if_pos (by simpa [List.isEmpty_iff] using hBne)]
    rw [executePattern_lastName]
    set alt := selectWeightedPattern (nextRand (nextRand draws).2).1
      (A.filter (fun p => p.name ≠ pat.name)) with halt2
    intro hcon
    have hmem := selectWeightedPattern_mem (nextRand (nextRand draws).2).1
      (A.filter (fun p => p.name ≠ pat.name)) hBne
    rw [← halt2] at hmem
    have hne := List.of_mem_filter hmem
    simp only [decide_eq_true_eq] at hne
    exact hne ((Option.some.inj hcon).trans hname.symm)
  · have hcond : ¬(3 ≤ sys.patternHistory.length ∧
        ((sys.patternHistory.drop (sys.patternHistory.length - 2)).all
          (fun name => name = pat.name)) = true) := by
      intro ⟨_, hall⟩
      rw [hlast] at hall
      simp only [List.all_cons, List.all_nil, Bool.and_true, Bool.and_eq_true,
        decide_eq_true_eq] at hall
      exact hname hall.1.symm
    rw [if_neg (by simpa using hcond)]
    rw [executePattern_lastName]
    intro hcon
    exact hname (Option.some.inj hcon)

/-- Witness for C7: after three blockRain selections in a row, the next
selection with every pattern unlocked is not blockRain. -/
theorem C7_antirepeat_witness :
    ((spawnPattern envId c7Sys c7Params []).2.1.patternHistory).getLast? ≠
      some "blockRain" :=
  C7_antirepeat envId c7Sys c7Params [] "blockRain" (by decide) (by decide) (by decide)

/-- C7 counterexample: from a fresh pattern system at unlock depth 2000
(altitude 200, every pattern available) with all random draws 0, the first
three selections all return blockRain: in particular the third selection
returns blockRain even though the two immediately preceding selections of
the run both returned blockRain and six differently-named patterns were in
the pool. -/
theorem C7_antirepeat_cex :
    c7Run1.2.1.patternHistory = ["blockRain"] ∧
    c7Run2.2.1.patternHistory = ["blockRain", "blockRain"] ∧
    c7Run3.2.1.patternHistory = ["blockRain", "blockRain", "blockRain"] ∧
    2 ≤ ((patternsList.filter
        (fun p => p.minAltitude ≤ qdiv |c7Params.spawnY| 10)).filter
        (fun p => p.name ≠ "blockRain")).length := by
  exact ⟨by decide, by decide, by decide, by decide⟩

/-! ## The concrete straight-ascent run: closed forms and invariants.
The run starts a fresh game on a 1920×1080 canvas and holds the pointer at
the bottom edge of the viewport (no keys, all random draws exhausted, the
identity/zero oracles of envId). The balloon climbs by the exact speed law,
the shield lerps toward the clamped bottom bound, and every spawned
obstacle is a parked block, so no collision ever occurs. At tick 415 the
camera starts scrolling and the shield is left below the bottom bound. -/

theorem lerp_val : (mkRat 28 100 : ℚ) = 7 / 25 := by
  rw [mkRat_q]; norm_num

theorem shY_succ (k : ℕ) : shY (k + 1) = shY k + (1038 - shY k) * (7 / 25) := by
  unfold shY
  rw [pow_succ]
  ring

theorem ballY_ge (k : ℕ) (hk : k ≤ 414) : 680 ≤ ballY k := by
  have hkq : (k : ℚ) ≤ 414 := by exact_mod_cast hk
  have hk0 : (0 : ℚ) ≤ (k : ℚ) := Nat.cast_nonneg k
  have hk2 : (k : ℚ) * k ≤ 414 * 414 := mul_le_mul hkq hkq hk0 (by norm_num)
  unfold ballY
  linarith

theorem ballY_415_lt : ballY 415 < 680 := by
  unfold ballY
  norm_num

/-- With the pointer on the bottom edge of the viewport and no keys held,
the shield target of a playing 1920×1080 state with camera at 0 is the
clamped point (960, 1038). -/
theorem ui_target_bottom (s : Engine)
    (hst : s.gameState = GameState.playing) (hw : s.width = 1920)
    (hh : s.height = 1080) (hcam : s.cameraY = 0) (hsr : s.shield.radius = 42)
    (hsens : s.settings.sensitivity = 1) :
    (updateInput physicsStep (inpBottom s) s).shield.targetPosition = ⟨960, 1038⟩ := by
  unfold updateInput inpBottom
  rw [if_neg (by simp [hst])]
  dsimp only
  have hkd : ¬((qadd (if false = true then -(qmul keyboardSpeed physicsStep) else 0)
        (if false = true then qmul keyboardSpeed physicsStep else 0)) ≠ 0 ∨
      (qadd (if false = true then -(qmul keyboardSpeed physicsStep) else 0)
        (if false = true then qmul keyboardSpeed physicsStep else 0)) ≠ 0) := by decide
  rw [if_neg hkd, if_neg hkd]
  rw [hsens, hw, hh, hcam, hsr]
  decide

/-- A parked block stays parked across one obstacle update, as long as the
shield sits at x = 960: the shield-gravity branch cannot fire (the squared
distance fed to the identity sqrt is at least 910², far above the 200
cutoff), damping and integration keep a zero horizontal velocity, and the
remaining stages only touch angle, lifetime and the active flag. -/
theorem updateObstacle1_park (dt : ℚ) (s : Engine) (o : Obstacle)
    (hsx : s.shield.position.x = 960) (ho : OPark o) :
    OPark (updateObstacle1 envId dt s o) := by
  obtain ⟨ty, pos, vel, rad, act, wd, hgt, ang, rot, anch, arms, swp, lt, orig⟩ := o
  obtain ⟨px, py⟩ := pos
  obtain ⟨vx, vy⟩ := vel
  obtain ⟨h1, h2, h3, h4, h5⟩ := ho
  dsimp only at h1 h2 h3 h4 h5
  subst h1 h2 h3 h4 h5
  have hdist : ¬(qadd (qadd s.shield.radius rad) 10 <
      envId.sqrtQ (qadd (qmul (qsub s.shield.position.x 50) (qsub s.shield.position.x 50))
        (qmul (qsub s.shield.position.y py) (qsub s.shield.position.y py))) ∧
      envId.sqrtQ (qadd (qmul (qsub s.shield.position.x 50) (qsub s.shield.position.x 50))
        (qmul (qsub s.shield.position.y py) (qsub s.shield.position.y py))) < 200) := by
    rw [hsx]
    rintro ⟨-, hlt⟩
    simp only [envId] at hlt
    simp only [qadd_eq, qsub_eq, qmul_eq] at hlt
    have hdy := mul_self_nonneg (s.shield.position.y - py)
    linarith
  unfold updateObstacle1 OPark
  dsimp only
  by_cases houter : ¬anch = true ∧ s.gameState = GameState.playing
  · rw [if_pos houter, if_neg hdist]
    dsimp only
    rw [if_neg (show ¬(ObjType.block = ObjType.rotor ∧ truthyQ rot = true) by simp)]
    cases lt with
    | none =>
      dsimp only
      split <;> exact ⟨rfl, by simp [qadd_eq, qmul_eq], by simp [qmul_eq], rfl, rfl⟩
    | some l =>
      dsimp only
      split <;> exact ⟨rfl, by simp [qadd_eq, qmul_eq], by simp [qmul_eq], rfl, rfl⟩
  · rw [if_neg houter]
    dsimp only
    rw [if_neg (show ¬(ObjType.block = ObjType.rotor ∧ truthyQ rot = true) by simp)]
    cases lt with
    | none =>
      dsimp only
      split <;> exact ⟨rfl, by simp [qadd_eq, qmul_eq], by simp [qmul_eq], rfl, rfl⟩
    | some l =>
      dsimp only
      split <;> exact ⟨rfl, by simp [qadd_eq, qmul_eq], by simp [qmul_eq], rfl, rfl⟩

/-- circleVsAABB reports no collision whenever the horizontal gap alone
already exceeds the circle radius. -/
theorem nocol_of_dx_far (f : ℚ → ℚ) (cx cy r ax ay aw ah : ℚ)
    (h : r * r < (cx - max ax (min cx (ax + aw))) * (cx - max ax (min cx (ax + aw)))) :
    circleVsAABB f cx cy r ax ay aw ah = none := by
  unfold circleVsAABB
  dsimp only
  simp only [qadd_eq, qsub_eq, qmul_eq]
  have hc : ¬((cx - max ax (min cx (ax + aw))) * (cx - max ax (min cx (ax + aw))) +
      (cy - max ay (min cy (ay + ah))) * (cy - max ay (min cy (ay + ah))) ≤ r * r) := by
    intro hcon
    have hdy := mul_self_nonneg (cy - max ay (min cy (ay + ah)))
    linarith
  rw [if_neg hc]

/-- A circle of radius at most 800 centred at x = 960 cannot touch a parked
40-wide block at x = 50 (its AABB spans x ∈ [30, 70], more than 890 away). -/
theorem parked_block_nocol (g : GameObject) (o : Obstacle)
    (hgx : g.position.x = 960) (hr0 : 0 ≤ g.radius) (hrb : g.radius ≤ 800)
    (hty : o.type = ObjType.block) (hox : o.position.x = 50) (how : o.width = 40) :
    checkCollision envId.sqrtQ g (obstacleGO o) = none := by
  unfold checkCollision
  rw [if_pos (Or.inl (show (obstacleGO o).type = ObjType.block from hty))]
  apply nocol_of_dx_far
  have e1 : (obstacleGO o).position.x = 50 := hox
  have e2 : (obstacleGO o).width = 40 := how
  rw [e1, e2, hgx, qsub_eq, qdiv_eq]
  have hmax : max ((50 : ℚ) - 40 / 2) (min 960 (50 - 40 / 2 + 40)) = 70 := by
    norm_num [min_def, max_def]
  rw [hmax]
  have hsq : g.radius * g.radius ≤ 800 * 800 := mul_le_mul hrb hrb hr0 (by norm_num)
  linarith

/-- Folding the shield-collision step over obstacles that all report no
collision just re-appends the obstacles and leaves the flag and draws. -/
theorem shieldFold_id (env : Env) (s : Engine) (l : List Obstacle) :
    ∀ (acc : List Obstacle) (hit : Bool) (draws : List ℚ),
    (∀ o ∈ l, (if o.active = true then
        checkCollision env.sqrtQ (shieldGO s.shield) (obstacleGO o) else none) = none) →
    l.foldl (shieldCollisionStep env s) (acc, hit, draws) = (acc ++ l, hit, draws) := by
  induction l with
  | nil =>
    intro acc hit draws _
    simp
  | cons o rest ih =>
    intro acc hit draws h
    rw [List.foldl_cons]
    have hstep : shieldCollisionStep env s (acc, hit, draws) o = (acc ++ [o], hit, draws) := by
      unfold shieldCollisionStep
      rw [h o (List.mem_cons_self o rest)]
    rw [hstep, ih (acc ++ [o]) hit draws (fun o' ho' => h o' (List.mem_cons_of_mem o ho'))]
    simp

/-- When no obstacle collides with the balloon or the shield, the collision
phase is the identity on the state and the draw stream. -/
theorem checkCollisions_clean (env : Env) (s : Engine) (draws : List ℚ)
    (hb : ∀ o ∈ s.obstacles, (o.active &&
      (checkCollision env.sqrtQ (balloonGO s.balloon) (obstacleGO o)).isSome) = false)
    (hs : ∀ o ∈ s.obstacles, (if o.active = true then
      checkCollision env.sqrtQ (shieldGO s.shield) (obstacleGO o) else none) = none) :
    checkCollisions env s draws = (s, draws) := by
  unfold checkCollisions
  have hany : (s.obstacles.any (fun o => o.active &&
      (checkCollision env.sqrtQ (balloonGO s.balloon) (obstacleGO o)).isSome)) = false := by
    rw [List.any_eq_false]
    intro o ho
    rw [hb o ho]
    simp
  rw [if_neg (by simp [hany])]
  dsimp only
  rw [shieldFold_id env s s.obstacles [] false draws hs]
  dsimp only
  rw [if_neg (by simp), List.nil_append]

/-- Weighted selection over a one-pattern pool always returns that pattern,
whatever the draw. -/
theorem selectWeightedPattern_single (r : ℚ) (p : PatternDef) :
    selectWeightedPattern r [p] = p := by
  unfold selectWeightedPattern
  split
  · rename_i q hq
    have hmem := selectWeightedGo_mem _ _ _ hq
    simpa using hmem
  · rfl

/-- floor(2 + difficulty·3) is exactly 2 while the difficulty is below 1/3. -/
theorem floor_two_add (d : ℚ) (hd0 : 0 ≤ d) (hd : d < 1 / 3) :
    (qadd 2 (qmul d 3)).floor.toNat = 2 := by
  have h : qadd 2 (qmul d 3) = 2 + d * 3 := by rw [qadd_eq, qmul_eq]
  rw [h]
  have hbridge : (2 + d * 3 : ℚ).floor = ⌊(2 + d * 3 : ℚ)⌋ :=
    (Rat.floor_def' _).trans Rat.floor_def.symm
  have hfl : (2 + d * 3 : ℚ).floor = 2 := by
    rw [hbridge, Int.floor_eq_iff]
    constructor
    · push_cast
      linarith
    · push_cast
      linarith
  rw [hfl]
  rfl

/-- With all draws exhausted and difficulty below 1/3, a blockRain
execution at the run's spawn parameters yields two parked blocks. -/
theorem spawnBlockRain_park (bv d : ℚ) (hd0 : 0 ≤ d) (hd : d < 1 / 3) :
    ∀ o ∈ (spawnBlockRain ⟨960, -100, bv, 42, d⟩ []).1, OPark o := by
  intro o ho
  unfold spawnBlockRain at ho
  dsimp only at ho
  rw [floor_two_add d hd0 hd] at ho
  have hlist : (blockRainGo (-100) (qsub 960 (qdiv (qadd (qmul 42 (mkRat 24 10)) 20) 2))
      (qadd (qmul 42 (mkRat 24 10)) 20) 2 []).1 = [parkBlock, parkBlock] := by decide
  rw [hlist] at ho
  rcases List.mem_cons.mp ho with rfl | ho2
  · exact ⟨rfl, rfl, rfl, rfl, rfl⟩
  · rcases List.mem_cons.mp ho2 with rfl | ho3
    · exact ⟨rfl, rfl, rfl, rfl, rfl⟩
    · exact absurd ho3 (List.not_mem_nil o)

theorem executeBlockRain_park (sys : PatternSystemState) (bv d : ℚ)
    (hd0 : 0 ≤ d) (hd : d < 1 / 3) :
    ∀ o ∈ (executePattern envId sys ⟨"blockRain", 3, 0⟩ ⟨960, -100, bv, 42, d⟩ []).1,
      OPark o := by
  intro o ho
  unfold executePattern executeBuilder at ho
  dsimp only at ho
  rw [if_pos rfl] at ho
  exact spawnBlockRain_park bv d hd0 hd o ho

/-- At the run's spawn parameters (spawn line 100 px above the top of a
camera at 0, so altitude 10) the altitude filter leaves only blockRain, and
any spawned obstacle is a parked block. -/
theorem spawnPattern_park (sys : PatternSystemState) (bv d : ℚ)
    (hd0 : 0 ≤ d) (hd : d < 1 / 3) :
    ∀ o ∈ (spawnPattern envId sys ⟨960, -100, bv, 42, d⟩ []).1, OPark o := by
  have hpool : patternsList.filter
      (fun p => p.minAltitude ≤ qdiv |(-100 : ℚ)| 10) = [⟨"blockRain", 3, 0⟩] := by
    decide
  intro o ho
  unfold spawnPattern at ho
  dsimp only at ho
  rw [hpool] at ho
  rw [if_neg (by decide)] at ho
  rw [selectWeightedPattern_single] at ho
  rw [show (nextRand ([] : List ℚ)).2 = ([] : List ℚ) from rfl] at ho
  split at ho
  · split at ho
    · rename_i halts
      exact absurd (by decide) halts
    · exact executeBlockRain_park _ bv d hd0 hd o ho
  · exact executeBlockRain_park _ bv d hd0 hd o ho

/-- Anything the pattern system emits during the run is a parked block. -/
theorem psysUpdate_park (sys : PatternSystemState) (bv d : ℚ)
    (hd0 : 0 ≤ d) (hd : d < 1 / 3) :
    ∀ o ∈ (psysUpdate envId sys physicsStep ⟨960, -100, bv, 42, d⟩ []).1, OPark o := by
  intro o ho
  unfold psysUpdate at ho
  dsimp only at ho
  split at ho
  · exact spawnPattern_park _ bv d hd0 hd o ho
  · simp at ho

theorem cshape_start : CShape 0 startState := by
  refine ⟨rfl, rfl, rfl, ?_, rfl, rfl, rfl, ?_, ?_, by decide, ?_,
    rfl, rfl, rfl, ?_⟩
  · show (0 : ℚ) = (0 : ℕ) / 120
    norm_num
  · show (-80 : ℚ) = -(80 + (0 : ℕ) / 30)
    norm_num
  · rw [show startState.balloon.position.y = (980 : ℚ) from by decide]
    unfold ballY
    norm_num
  · rw [show startState.shield.position.y = (930 : ℚ) from by decide]
    unfold shY
    norm_num
  · intro o ho
    exact absurd ho (List.not_mem_nil o)

set_option maxHeartbeats 2000000 in
/-- One tick of the concrete run preserves the state shape, advancing the
closed forms, for as long as the camera has not started to scroll
(k + 1 ≤ 414 ticks). -/
theorem cshape_tick (k : ℕ) (s : Engine) (hk : k ≤ 413) (hc : CShape k s) :
    CShape (k + 1) (tickBottom s) := by
  obtain ⟨hw, hh, hst, ht, hcam, hacc, hbr, hvy, hby, hsx, hsy, hsr, hsl, hsens, hobs⟩ := hc
  have hkq : (k : ℚ) ≤ 413 := by exact_mod_cast hk
  set s1 : Engine := { s with gameTime := qadd s.gameTime physicsStep } with hs1
  set s2 : Engine := updateInput physicsStep (inpBottom s) s1 with hs2
  set s3 : Engine := updateBalloon envId physicsStep s2 with hs3
  set s4 : Engine := updateShield physicsStep s3 with hs4
  set s5 : Engine := updateObstacles envId physicsStep s4 with hs5
  set r6 : Engine × List ℚ := updateSpawning envId physicsStep s5 [] with hr6
  set s7 : Engine := updateCamera r6.1 with hs7
  set r8 : Engine × List ℚ := checkCollisions envId s7 r6.2 with hr8
  have htb : tickBottom s =
      { r8.1 with
        score := max 0 (qdiv (qsub r8.1.height r8.1.balloon.position.y) 10)
        obstacles := r8.1.obstacles.filter (fun o => o.active) } := rfl
  have h2st : s2.gameState = GameState.playing := by
    rw [hs2, ui_gameState, hs1]; exact hst
  have h2b : s2.balloon = s.balloon := by
    rw [hs2, ui_balloon, hs1]
  have h2t : s2.gameTime = ((k : ℚ) + 1) / 120 := by
    rw [hs2, ui_gameTime, hs1]
    show qadd s.gameTime physicsStep = _
    rw [ht, qadd_eq, physicsStep_eq]
    ring
  have h2w : s2.width = 1920 := by rw [hs2, ui_width, hs1]; exact hw
  have h2h : s2.height = 1080 := by rw [hs2, ui_height, hs1]; exact hh
  have h2cam : s2.cameraY = 0 := by rw [hs2, ui_cameraY, hs1]; exact hcam
  have h2sens : s2.settings.sensitivity = 1 := by rw [hs2, ui_settings, hs1]; exact hsens
  have h2shp : s2.shield.position = s.shield.position := by
    rw [hs2, ui_shield_position, hs1]
  have h2rad : s2.shield.radius = 42 := by rw [hs2, ui_shield_radius, hs1]; exact hsr
  have h2lerp : s2.shield.lerpFactor = mkRat 28 100 := by
    rw [hs2, ui_shield_lerpFactor, hs1]; exact hsl
  have h2tgt : s2.shield.targetPosition = ⟨960, 1038⟩ := by
    rw [hs2, hs1, ui_gameTime_irrel]
    exact ui_target_bottom s hst hw hh hcam hsr hsens
  have h3shield : s3.shield = s2.shield := by rw [hs3, ub_shield]
  have h3acc : s3.balloon.acceleration = 4 := by
    rw [hs3, ub_acceleration, h2b]; exact hacc
  have h3brad : s3.balloon.radius = 22 := by
    rw [hs3]
    show s2.balloon.radius = 22
    rw [h2b]; exact hbr
  have h3vy : s3.balloon.velocity.y = -(80 + ((k : ℚ) + 1) / 30) := by
    rw [hs3, ub_vy, h2b, h2t, hacc, hvy, physicsStep_eq]
    have hcond : |(-(80 + (k : ℚ) / 30))| < min 160 (80 + 4 * (((k : ℚ) + 1) / 120)) := by
      rw [abs_neg, abs_of_nonneg (by positivity)]
      exact lt_min (by linarith) (by linarith)
    rw [if_pos hcond]
    ring
  have h3py : s3.balloon.position.y = ballY (k + 1) := by
    rw [hs3, ub_py, ← hs3, h3vy, h2b, hby, physicsStep_eq]
    unfold ballY
    push_cast
    ring
  have h3x : s3.balloon.position.x = 960 := by
    rw [hs3]
    unfold updateBalloon
    dsimp only [envId]
    rw [h2w]
    decide
  have h4pos : s4.shield.position = ⟨960, shY (k + 1)⟩ := by
    rw [hs4, us_position, h3shield, h2tgt, h2shp, h2lerp, hsx, hsy]
    refine Vec2.ext ?_ ?_
    · show (960 : ℚ) + ((960 : ℚ) - 960) * mkRat 28 100 = 960
      norm_num
    · show shY k + ((1038 : ℚ) - shY k) * mkRat 28 100 = shY (k + 1)
      rw [lerp_val, shY_succ]
  have h4sx : s4.shield.position.x = 960 := by rw [h4pos]
  have h4sy : s4.shield.position.y = shY (k + 1) := by rw [h4pos]
  have h4rad : s4.shield.radius = 42 := by
    rw [hs4, us_radius, h3shield]; exact h2rad
  have h4lerp : s4.shield.lerpFactor = mkRat 28 100 := by
    rw [hs4, us_lerpFactor, h3shield]; exact h2lerp
  have h4obseq : s4.obstacles = s.obstacles := by
    rw [hs4, us_obstacles, hs3, ub_obstacles, hs2, ui_obstacles, hs1]
  have h5P : ∀ o ∈ s5.obstacles, OPark o := by
    rw [hs5, uo_obstacles]
    intro o ho
    obtain ⟨o', ho', rfl⟩ := List.mem_map.mp ho
    exact updateObstacle1_park physicsStep s4 o' h4sx (hobs o' (h4obseq ▸ ho'))
  have h5w : s5.width = 1920 := by
    rw [hs5, uo_width, hs4, us_width, hs3, ub_width]; exact h2w
  have h5cam : s5.cameraY = 0 := by
    rw [hs5, uo_cameraY, hs4, us_cameraY, hs3, ub_cameraY]; exact h2cam
  have h5rad : s5.shield.radius = 42 := by rw [hs5, uo_shield]; exact h4rad
  have h5t : s5.gameTime = ((k : ℚ) + 1) / 120 := by
    rw [hs5, uo_gameTime, hs4, us_gameTime, hs3, ub_gameTime]; exact h2t
  have hd0 : 0 ≤ min 1 (qdiv s5.gameTime 180) := by
    refine le_min (by norm_num) ?_
    rw [h5t, qdiv_eq]
    positivity
  have hdlt : min 1 (qdiv s5.gameTime 180) < 1 / 3 := by
    rw [h5t, qdiv_eq]
    refine min_lt_iff.mpr (Or.inr ?_)
    linarith
  have h6P : ∀ o ∈ r6.1.obstacles, OPark o := by
    rw [hr6, usp_obstacles, h5w, h5cam, h5rad]
    rw [show qdiv (1920 : ℚ) 2 = 960 from by decide,
        show qsub (0 : ℚ) 100 = -100 from by decide]
    intro o ho
    rcases List.mem_append.mp ho with hmem | hmem
    · exact h5P o hmem
    · exact psysUpdate_park s5.psys |s5.balloon.velocity.y|
        (min 1 (qdiv s5.gameTime 180)) hd0 hdlt o hmem
  have hr6by : r6.1.balloon.position.y = ballY (k + 1) := by
    rw [hr6, usp_balloon, hs5, uo_balloon, hs4, us_balloon]; exact h3py
  have hr6h : r6.1.height = 1080 := by
    rw [hr6, usp_height, hs5, uo_height, hs4, us_height, hs3, ub_height]; exact h2h
  have hr6cam : r6.1.cameraY = 0 := by
    rw [hr6, usp_cameraY, hs5, uo_cameraY, hs4, us_cameraY, hs3, ub_cameraY]; exact h2cam
  have h7cam : s7.cameraY = 0 := by
    rw [hs7, uc_cameraY_eq, hr6by, hr6h, hr6cam]
    rw [if_neg (by have hbg := ballY_ge (k + 1) (by omega); linarith)]
  have h7obsEq : s7.obstacles = r6.1.obstacles := by rw [hs7, uc_obstacles]
  have h7P : ∀ o ∈ s7.obstacles, OPark o := by rw [h7obsEq]; exact h6P
  have h7bx : s7.balloon.position.x = 960 := by
    rw [hs7, uc_balloon, hr6, usp_balloon, hs5, uo_balloon, hs4, us_balloon]; exact h3x
  have h7brad : s7.balloon.radius = 22 := by
    rw [hs7, uc_balloon, hr6, usp_balloon, hs5, uo_balloon, hs4, us_balloon]; exact h3brad
  have h7shx : s7.shield.position.x = 960 := by
    rw [hs7, uc_shield, hr6, usp_shield, hs5, uo_shield]; exact h4sx
  have h7shrad : s7.shield.radius = 42 := by
    rw [hs7, uc_shield, hr6, usp_shield, hs5, uo_shield]; exact h4rad
  have h7w : s7.width = 1920 := by rw [hs7, uc_width, hr6, usp_width]; exact h5w
  have h7h : s7.height = 1080 := by
    rw [hs7, uc_height, hr6, usp_height, hs5, uo_height, hs4, us_height, hs3, ub_height]
    exact h2h
  have h7st : s7.gameState = GameState.playing := by
    rw [hs7, uc_gameState, hr6, usp_gameState, hs5, uo_gameState, hs4, us_gameState,
      hs3, ub_gameState]
    exact h2st
  have h7t : s7.gameTime = ((k : ℚ) + 1) / 120 := by
    rw [hs7, uc_gameTime, hr6, usp_gameTime]; exact h5t
  have h7vy : s7.balloon.velocity.y = -(80 + ((k : ℚ) + 1) / 30) := by
    rw [hs7, uc_balloon, hr6, usp_balloon, hs5, uo_balloon, hs4, us_balloon]; exact h3vy
  have h7by : s7.balloon.position.y = ballY (k + 1) := by
    rw [hs7, uc_balloon]; exact hr6by
  have h7acc : s7.balloon.acceleration = 4 := by
    rw [hs7, uc_balloon, hr6, usp_balloon, hs5, uo_balloon, hs4, us_balloon]; exact h3acc
  have h7sy : s7.shield.position.y = shY (k + 1) := by
    rw [hs7, uc_shield, hr6, usp_shield, hs5, uo_shield]; exact h4sy
  have h7lerp : s7.shield.lerpFactor = mkRat 28 100 := by
    rw [hs7, uc_shield, hr6, usp_shield, hs5, uo_shield]; exact h4lerp
  have h7sens : s7.settings.sensitivity = 1 := by
    rw [hs7, uc_settings, hr6, usp_settings, hs5, uo_settings, hs4, us_settings,
      hs3, ub_settings]
    exact h2sens
  have hbF : ∀ o ∈ s7.obstacles, (o.active &&
      (checkCollision envId.sqrtQ (balloonGO s7.balloon) (obstacleGO o)).isSome) = false := by
    intro o ho
    have hP := h7P o ho
    have hnone : checkCollision envId.sqrtQ (balloonGO s7.balloon) (obstacleGO o) = none := by
      refine parked_block_nocol (balloonGO s7.balloon) o h7bx ?_ ?_ hP.1 hP.2.1 hP.2.2.2.1
      · show (0 : ℚ) ≤ s7.balloon.radius
        rw [h7brad]; norm_num
      · show s7.balloon.radius ≤ 800
        rw [h7brad]; norm_num
    rw [hnone]
    simp
  have hshF : ∀ o ∈ s7.obstacles, (if o.active = true then
      checkCollision envId.sqrtQ (shieldGO s7.shield) (obstacleGO o) else none) = none := by
    intro o ho
    have hP := h7P o ho
    have hnone : checkCollision envId.sqrtQ (shieldGO s7.shield) (obstacleGO o) = none := by
      refine parked_block_nocol (shieldGO s7.shield) o h7shx ?_ ?_ hP.1 hP.2.1 hP.2.2.2.1
      · show (0 : ℚ) ≤ s7.shield.radius
        rw [h7shrad]; norm_num
      · show s7.shield.radius ≤ 800
        rw [h7shrad]; norm_num
    rw [hnone]
    split <;> rfl
  have h81 : r8.1 = s7 := by
    rw [hr8, checkCollisions_clean envId s7 r6.2 hbF hshF]
  rw [htb]
  refine ⟨?_, ?_, ?_, ?_, ?_, ?_, ?_, ?_, ?_, ?_, ?_, ?_, ?_, ?_, ?_⟩
  · show r8.1.width = 1920
    rw [h81]; exact h7w
  · show r8.1.height = 1080
    rw [h81]; exact h7h
  · show r8.1.gameState = GameState.playing
    rw [h81]; exact h7st
  · show r8.1.gameTime = ((k + 1 : ℕ) : ℚ) / 120
    rw [h81, h7t]
    push_cast
    ring
  · show r8.1.cameraY = 0
    rw [h81]; exact h7cam
  · show r8.1.balloon.acceleration = 4
    rw [h81]; exact h7acc
  · show r8.1.balloon.radius = 22
    rw [h81]; exact h7brad
  · show r8.1.balloon.velocity.y = -(80 + ((k + 1 : ℕ) : ℚ) / 30)
    rw [h81, h7vy]
    push_cast
    ring
  · show r8.1.balloon.position.y = ballY (k + 1)
    rw [h81]; exact h7by
  · show r8.1.shield.position.x = 960
    rw [h81]; exact h7shx
  · show r8.1.shield.position.y = shY (k + 1)
    rw [h81]; exact h7sy
  · show r8.1.shield.radius = 42
    rw [h81]; exact h7shrad
  · show r8.1.shield.lerpFactor = mkRat 28 100
    rw [h81]; exact h7lerp
  · show r8.1.settings.sensitivity = 1
    rw [h81]; exact h7sens
  · show ∀ o ∈ r8.1.obstacles.filter (fun o => o.active), OPark o
    intro o ho
    rw [h81] at ho
    exact h7P o (List.mem_of_mem_filter ho)

set_option maxHeartbeats 1000000 in
/-- Tick 415 of the concrete run: the balloon finally drops the camera
target below the dead zone, the camera scrolls to ballY 415 − 680 < 0, and
the shield (still lerping toward the stale bottom bound 1038 computed with
cameraY = 0) ends the tick below the new bottom bound. -/
theorem cshape_final (s : Engine) (hc : CShape 414 s) :
    ¬ shieldInBounds (tickBottom s) := by
  obtain ⟨hw, hh, hst, ht, hcam, hacc, hbr, hvy, hby, hsx, hsy, hsr, hsl, hsens, hobs⟩ := hc
  set s1 : Engine := { s with gameTime := qadd s.gameTime physicsStep } with hs1
  set s2 : Engine := updateInput physicsStep (inpBottom s) s1 with hs2
  set s3 : Engine := updateBalloon envId physicsStep s2 with hs3
  set s4 : Engine := updateShield physicsStep s3 with hs4
  set s5 : Engine := updateObstacles envId physicsStep s4 with hs5
  set r6 : Engine × List ℚ := updateSpawning envId physicsStep s5 [] with hr6
  set s7 : Engine := updateCamera r6.1 with hs7
  set r8 : Engine × List ℚ := checkCollisions envId s7 r6.2 with hr8
  have htb : tickBottom s =
      { r8.1 with
        score := max 0 (qdiv (qsub r8.1.height r8.1.balloon.position.y) 10)
        obstacles := r8.1.obstacles.filter (fun o => o.active) } := rfl
  have h2b : s2.balloon = s.balloon := by
    rw [hs2, ui_balloon, hs1]
  have h2t : s2.gameTime = 415 / 120 := by
    rw [hs2, ui_gameTime, hs1]
    show qadd s.gameTime physicsStep = _
    rw [ht, qadd_eq, physicsStep_eq]
    push_cast
    norm_num
  have h2h : s2.height = 1080 := by rw [hs2, ui_height, hs1]; exact hh
  have h2cam : s2.cameraY = 0 := by rw [hs2, ui_cameraY, hs1]; exact hcam
  have h2shp : s2.shield.position = s.shield.position := by
    rw [hs2, ui_shield_position, hs1]
  have h2rad : s2.shield.radius = 42 := by rw [hs2, ui_shield_radius, hs1]; exact hsr
  have h2lerp : s2.shield.lerpFactor = mkRat 28 100 := by
    rw [hs2, ui_shield_lerpFactor, hs1]; exact hsl
  have h2tgt : s2.shield.targetPosition = ⟨960, 1038⟩ := by
    rw [hs2, hs1, ui_gameTime_irrel]
    exact ui_target_bottom s hst hw hh hcam hsr hsens
  have h3shield : s3.shield = s2.shield := by rw [hs3, ub_shield]
  have h3vy : s3.balloon.velocity.y = -(80 + 415 / 30) := by
    rw [hs3, ub_vy, h2b, h2t, hacc, hvy, physicsStep_eq]
    have hcond : |(-(80 + ((414 : ℕ) : ℚ) / 30))| <
        min 160 (80 + 4 * ((415 : ℚ) / 120)) := by
      rw [abs_neg, abs_of_nonneg (by positivity)]
      refine lt_min (by push_cast; norm_num) (by push_cast; norm_num)
    rw [if_pos hcond]
    push_cast
    ring
  have h3py : s3.balloon.position.y = ballY 415 := by
    rw [hs3, ub_py, ← hs3, h3vy, h2b, hby, physicsStep_eq]
    unfold ballY
    push_cast
    ring
  have h4pos : s4.shield.position = ⟨960, shY 415⟩ := by
    rw [hs4, us_position, h3shield, h2tgt, h2shp, h2lerp, hsx, hsy]
    refine Vec2.ext ?_ ?_
    · show (960 : ℚ) + ((960 : ℚ) - 960) * mkRat 28 100 = 960
      norm_num
    · show shY 414 + ((1038 : ℚ) - shY 414) * mkRat 28 100 = shY 415
      rw [lerp_val]
      exact (shY_succ 414).symm
  have h4sy : s4.shield.position.y = shY 415 := by rw [h4pos]
  have h4rad : s4.shield.radius = 42 := by
    rw [hs4, us_radius, h3shield]; exact h2rad
  have hr6by : r6.1.balloon.position.y = ballY 415 := by
    rw [hr6, usp_balloon, hs5, uo_balloon, hs4, us_balloon]; exact h3py
  have hr6h : r6.1.height = 1080 := by
    rw [hr6, usp_height, hs5, uo_height, hs4, us_height, hs3, ub_height]; exact h2h
  have hr6cam : r6.1.cameraY = 0 := by
    rw [hr6, usp_cameraY, hs5, uo_cameraY, hs4, us_cameraY, hs3, ub_cameraY]; exact h2cam
  have h7cam : s7.cameraY = ballY 415 - 680 := by
    rw [hs7, uc_cameraY_eq, hr6by, hr6h, hr6cam]
    rw [if_pos (by have hlt := ballY_415_lt; linarith)]
    ring
  have h7sy : s7.shield.position.y = shY 415 := by
    rw [hs7, uc_shield, hr6, usp_shield, hs5, uo_shield]; exact h4sy
  have h7shrad : s7.shield.radius = 42 := by
    rw [hs7, uc_shield, hr6, usp_shield, hs5, uo_shield]; exact h4rad
  have h7h : s7.height = 1080 := by
    rw [hs7, uc_height, hr6, usp_height, hs5, uo_height, hs4, us_height, hs3, ub_height]
    exact h2h
  have hfy : (tickBottom s).shield.position.y = shY 415 := by
    rw [htb]
    show r8.1.shield.position.y = shY 415
    rw [hr8, cc_shield_position]
    exact h7sy
  have hfr : (tickBottom s).shield.radius = 42 := by
    rw [htb]
    show r8.1.shield.radius = 42
    rw [hr8, cc_shield_radius]
    exact h7shrad
  have hfh : (tickBottom s).height = 1080 := by
    rw [htb]
    show r8.1.height = 1080
    rw [hr8, cc_height]
    exact h7h
  have hfc : (tickBottom s).cameraY = ballY 415 - 680 := by
    rw [htb]
    show r8.1.cameraY = ballY 415 - 680
    rw [hr8, cc_cameraY]
    exact h7cam
  intro hin
  obtain ⟨-, -, -, hbot⟩ := hin
  rw [hfy, hfr, hfh, hfc] at hbot
  have hpow1 : ((18 : ℚ) / 25) ^ 415 ≤ (18 / 25) ^ 16 :=
    pow_le_pow_of_le_one (by norm_num) (by norm_num) (by norm_num)
  have hpow : (108 : ℚ) * (18 / 25) ^ 415 < 29 / 45 := by
    have h2 : (108 : ℚ) * (18 / 25) ^ 415 ≤ 108 * (18 / 25) ^ 16 := by
      have hmul := mul_le_mul_of_nonneg_left hpow1 (by norm_num : (0 : ℚ) ≤ 108)
      linarith
    have h3 : (108 : ℚ) * (18 / 25) ^ 16 < 29 / 45 := by norm_num
    linarith
  unfold shY ballY at hbot
  push_cast at hbot
  linarith

/-- Every prefix length of the straight-ascent run up to 414 ticks is
realized by a reachable state of the claimed shape. -/
theorem cshape_reach : ∀ k : ℕ, k ≤ 414 →
    ∃ s : Engine, Reachable envId 1920 1080 s ∧ CShape k s := by
  intro k
  induction k with
  | zero =>
    intro _
    refine ⟨startState, ?_, cshape_start⟩
    exact Relation.ReflTransGen.tail Relation.ReflTransGen.refl
      (Step.start (initEngine 1920 1080))
  | succ n ih =>
    intro hk
    obtain ⟨s, hr, hc⟩ := ih (by omega)
    have hstep : Step envId s (tickBottom s) := Step.tick s (inpBottom s) [] hc.hst
    exact ⟨tickBottom s, Relation.ReflTransGen.tail hr hstep,
      cshape_tick n s (by omega) hc⟩

/-- C3 counterexample: the claimed shield bounds do not hold at every
reachable state. On a 1920×1080 run, start a game and hold the pointer at
the bottom edge of the viewport for 415 physics ticks (no keys, all random
draws exhausted, identity/zero oracles): every spawned obstacle is a block
parked at x = 50, so the run stays in play, and at tick 415 the camera
first scrolls (to ballY 415 − 680 ≈ −0.644) while the shield, parked at the
bottom bound 1038 computed from the pre-scroll camera, is left below the
new bound cameraY + height − radius by about 0.64 px. -/
theorem C3_shield_bounds_cex :
    ∃ s : Engine, Reachable envId 1920 1080 s ∧ ¬ shieldInBounds s := by
  obtain ⟨s, hr, hc⟩ := cshape_reach 414 (le_refl 414)
  have hstep : Step envId s (tickBottom s) := Step.tick s (inpBottom s) [] hc.hst
  exact ⟨tickBottom s, Relation.ReflTransGen.tail hr hstep, cshape_final s hc⟩

end RiseUp
